import Mathlib

/-!
A shallow embedding of the core of the FIRE-Balance planner
(`src/implementations/python/core/`) in Lean 4, together with theorems
settling the specification claims about it.

Conventions of the embedding:
* Python `float` and `Decimal` amounts are modelled by `ℚ` (exact arithmetic;
  IEEE-754 rounding is outside the model).  `Decimal(str(x))` conversions are
  therefore the identity.
* Python `dict[str, Decimal]` is modelled by an insertion-ordered association
  list `List (String × ℚ)`; assignment to an existing key replaces the value
  in place and assignment to a fresh key appends, matching `dict` semantics.
* `pandas` data frames are modelled by lists of row records.
* Fallible code is modelled with `Option`/`Except`.
-/

namespace FIREBalance

/-- Python dict over string keys with rational values, in insertion order. -/
abbrev Dict := List (String × ℚ)

/-- `d.get(k, 0)` — lookup with default `0`. -/
def dictGet (d : Dict) (k : String) : ℚ :=
  match d.find? (fun p => p.1 = k) with
  | some p => p.2
  | none => 0

/-- `k in d` — key membership. -/
def dictHasKey (d : Dict) (k : String) : Bool :=
  d.any (fun p => p.1 = k)

/-- `d[k] = v` — replace the value of an existing key in place, else append. -/
def dictSet (d : Dict) (k : String) (v : ℚ) : Dict :=
  if dictHasKey d k then d.map (fun p => if p.1 = k then (p.1, v) else p)
  else d ++ [(k, v)]

/-- `d[k] += v` for an existing key, `d[k] = v` otherwise. -/
def dictAdd (d : Dict) (k : String) (v : ℚ) : Dict :=
  if dictHasKey d k then d.map (fun p => if p.1 = k then (p.1, p.2 + v) else p)
  else d ++ [(k, v)]

/-- Sum of all values of the dict. -/
def dictTotal (d : Dict) : ℚ :=
  (d.map (fun p => p.2)).sum

/-- Keys of the dict, in order. -/
def dictKeys (d : Dict) : List String :=
  d.map (fun p => p.1)

/-- Asset liquidity level (`LiquidityLevel` in `data_models.py`). -/
inductive LiquidityLevel where
  | high
  | medium
  | low
deriving DecidableEq, Repr

/-- An asset class of the portfolio (`AssetClass` in `data_models.py`).
Only the fields the core computations read are carried; `name` is assumed
already normalized (lowercase, collapsed whitespace). -/
structure AssetClass where
  name : String
  allocation_percentage : ℚ
  expected_return : ℚ
  volatility : ℚ
  liquidity_level : LiquidityLevel
deriving DecidableEq, Repr

/-- `PortfolioConfiguration` in `data_models.py`. -/
structure PortfolioConfiguration where
  asset_classes : List AssetClass
  enable_rebalancing : Bool
deriving DecidableEq, Repr

/-- `UserProfile` in `data_models.py`.  `current_age` is derived from
`birth_year` and the current calendar year, which the embedding passes
explicitly where the source calls `datetime.now()`. -/
structure UserProfile where
  birth_year : ℤ
  expected_fire_age : ℤ
  legal_retirement_age : ℤ
  life_expectancy : ℤ
  current_net_worth : ℚ
  inflation_rate : ℚ
  safety_buffer_months : ℚ
  portfolio : PortfolioConfiguration
deriving DecidableEq, Repr

/-- `UserProfile.current_age`: `datetime.now().year - birth_year`. -/
def UserProfile.current_age (p : UserProfile) (currentYear : ℤ) : ℤ :=
  currentYear - p.birth_year

/-- `ItemFrequency` in `data_models.py`. -/
inductive ItemFrequency where
  | recurring
  | one_time
deriving DecidableEq, Repr

/-- `IncomeExpenseItem` in `data_models.py` (fields read by the projection
builder and the advisor). -/
structure IncomeExpenseItem where
  id : String
  name : String
  after_tax_amount_per_period : ℚ
  frequency : ItemFrequency
  start_age : ℤ
  end_age : Option ℤ
  annual_growth_rate : ℚ
  is_income : Bool
deriving DecidableEq, Repr

/-!  ## PortfolioState (`portfolio_manager.py`) -/

/-- `PortfolioState`: asset name → current value. -/
structure PortfolioState where
  asset_values : Dict
deriving DecidableEq, Repr

/-- `PortfolioState.total_value`. -/
def PortfolioState.total_value (s : PortfolioState) : ℚ :=
  dictTotal s.asset_values

/-- Machine epsilon of a double (`sys.float_info.epsilon`). -/
def floatEpsilon : ℚ := 1 / 4503599627370496

/-- First entry attaining the maximal value (Python `max(items, key=value)`:
returns the first maximal item). -/
def firstMaxByValue (d : Dict) : Option (String × ℚ) :=
  d.foldl
    (fun best p =>
      match best with
      | none => some p
      | some q => if p.2 > q.2 then some p else some q)
    none

/-- The largest-entry precision correction inside `get_allocation`:
add `remaining_error` to the first entry holding the maximal value. -/
def adjustLargest (d : Dict) (remaining_error : ℚ) : Dict :=
  match firstMaxByValue d with
  | none => d
  | some q => dictAdd d q.1 remaining_error

/-- `PortfolioState.get_allocation` (`portfolio_manager.py` lines 34-90):
divide each value by the total; if the sum of the raw proportions deviates
from 1 by more than the `0.0001` tolerance, rescale proportionally and then
correct any residual on the largest entry. -/
def PortfolioState.get_allocation (s : PortfolioState) : Dict :=
  let total := s.total_value
  if total = 0 then s.asset_values.map (fun p => (p.1, 0))
  else
    let raw := s.asset_values.map (fun p => (p.1, p.2 / total))
    let allocation_sum := dictTotal raw
    if |allocation_sum - 1| > 1 / 10000 then
      if allocation_sum > 0 then
        let adjusted := raw.map (fun p => (p.1, p.2 * (1 / allocation_sum)))
        let adjusted_sum := dictTotal adjusted
        let remaining_error := 1 - adjusted_sum
        if |remaining_error| > floatEpsilon then adjustLargest adjusted remaining_error
        else adjusted
      else raw
    else raw

/-!  ## PortfolioCalculator (`portfolio_manager.py`) -/

/-- `PortfolioCalculator.get_target_allocation`: asset name → percentage/100. -/
def get_target_allocation (cfg : PortfolioConfiguration) : Dict :=
  cfg.asset_classes.map (fun a => (a.name, a.allocation_percentage / 100))

/-- `PortfolioCalculator.calculate_returns_by_allocation`. -/
def calculate_returns_by_allocation (cfg : PortfolioConfiguration)
    (alloc : Dict) (portfolio_value : ℚ) : ℚ :=
  if portfolio_value ≤ 0 then 0
  else
    let total_return := cfg.asset_classes.foldl
      (fun acc a => acc + a.expected_return / 100 * dictGet alloc a.name) 0
    portfolio_value * total_return

/-- `PortfolioCalculator.should_rebalance` with the default `0.05` threshold. -/
def should_rebalance (cfg : PortfolioConfiguration)
    (current target : Dict) : Bool :=
  if ! cfg.enable_rebalancing then false
  else (dictKeys target).any (fun k => |dictGet current k - dictGet target k| > 5 / 100)

/-- `PortfolioCalculator.calculate_rebalancing_trades`
(`portfolio_manager.py` lines 232-251). -/
def calculate_rebalancing_trades (cfg : PortfolioConfiguration)
    (current_portfolio : PortfolioState) (target_allocation : Dict) : Dict :=
  if current_portfolio.total_value ≤ 0 then
    cfg.asset_classes.map (fun a => (a.name, 0))
  else
    cfg.asset_classes.map (fun a =>
      (a.name,
        current_portfolio.total_value * dictGet target_allocation a.name
          - dictGet current_portfolio.asset_values a.name))

/-- `PortfolioSimulator._execute_trades` (`portfolio_manager.py` lines 704-712):
add each trade to the existing asset, or create the asset clamped at 0. -/
def execute_trades (pf : PortfolioState) (trades : Dict) : PortfolioState :=
  PortfolioState.mk <|
    trades.foldl
      (fun acc p =>
        if dictHasKey acc p.1 then dictAdd acc p.1 p.2
        else acc ++ [(p.1, max 0 p.2)])
      pf.asset_values

/-!  ## LiquidityAwareFlowStrategy (`portfolio_manager.py` lines 301-556)

The strategy is parameterized by `cash_buffer_months` (the engine uses the
default `3`) and an optional `portfolio_config`; the engine constructs
`LiquidityAwareFlowStrategy()` with no config, so the fallback branches are
the ones it exercises.  All functions are written against an explicit
`Option PortfolioConfiguration`. -/

/-- `LiquidityAwareFlowStrategy._ensure_liquidity_buffer`: top up the asset
named `"cash"` to the required buffer; returns the updated allocation and the
amount used. -/
def ensure_liquidity_buffer (cash_buffer_months : ℚ) (income : ℚ)
    (pf : PortfolioState) (annual_expenses : ℚ) (allocation : Dict) :
    Dict × ℚ :=
  let required_buffer := annual_expenses * (cash_buffer_months / 12)
  let current_high_liquidity := dictGet pf.asset_values "cash"
  let buffer_shortfall := max 0 (required_buffer - current_high_liquidity)
  if buffer_shortfall > 0 then
    let buffer_allocation := min income buffer_shortfall
    (dictSet allocation "cash" buffer_allocation, buffer_allocation)
  else (allocation, 0)

/-- `LiquidityAwareFlowStrategy._allocate_proportionally` (fallback when no
config is available): spread the remainder over every target key except the
literal `"Cash"` (note: asset names are normalized to lowercase, so this
filter matches nothing in practice). -/
def allocate_proportionally (remaining_income : ℚ) (target_allocation : Dict)
    (allocation : Dict) : Dict :=
  let investment_targets := target_allocation.filter (fun p => p.1 ≠ "Cash")
  let total_investment := dictTotal investment_targets
  if total_investment > 0 then
    investment_targets.foldl
      (fun acc p => dictAdd acc p.1 (remaining_income * (p.2 / total_investment)))
      allocation
  else allocation

/-- `LiquidityAwareFlowStrategy._allocate_by_return_optimization`: with a
config, allocate the remainder proportionally within the non-HIGH-liquidity
assets having positive target weight (sorted by expected return, which does
not affect the resulting map). -/
def allocate_by_return_optimization (remaining_income : ℚ)
    (target_allocation : Dict) (allocation : Dict)
    (cfgOpt : Option PortfolioConfiguration) : Dict :=
  match cfgOpt with
  | none => allocate_proportionally remaining_income target_allocation allocation
  | some cfg =>
    let investment_assets := cfg.asset_classes.filter
      (fun a => a.liquidity_level ≠ LiquidityLevel.high
        ∧ dictGet target_allocation a.name > 0)
    let investment_assets := investment_assets.mergeSort
      (fun a b => b.expected_return ≤ a.expected_return)
    let total_investment := (investment_assets.map
      (fun a => dictGet target_allocation a.name)).sum
    if total_investment > 0 then
      investment_assets.foldl
        (fun acc a =>
          let target_share := dictGet target_allocation a.name
          if target_share > 0 then
            dictAdd acc a.name (remaining_income * (target_share / total_investment))
          else acc)
        allocation
    else allocation

/-- `LiquidityAwareFlowStrategy.handle_income`
(`portfolio_manager.py` lines 315-339). -/
def handle_income (cash_buffer_months : ℚ)
    (cfgOpt : Option PortfolioConfiguration) (income : ℚ)
    (pf : PortfolioState) (annual_expenses : ℚ) (target_allocation : Dict) :
    Dict :=
  let allocation := (dictKeys target_allocation).map (fun k => (k, (0 : ℚ)))
  let step1 := ensure_liquidity_buffer cash_buffer_months income pf
    annual_expenses allocation
  let remaining_income := income - step1.2
  if remaining_income > 0 then
    allocate_by_return_optimization remaining_income target_allocation step1.1 cfgOpt
  else step1.1

/-- `LiquidityAwareFlowStrategy._get_assets_by_liquidity_tier`: assets of the
given tier with positive value; without a config the tier membership falls
back to hardcoded names. -/
def get_assets_by_liquidity_tier (tier : LiquidityLevel)
    (pf : PortfolioState) (cfgOpt : Option PortfolioConfiguration) : Dict :=
  let tier_asset_names : List String :=
    match cfgOpt with
    | none =>
      match tier with
      | LiquidityLevel.high => ["cash"]
      | LiquidityLevel.medium => ["stocks"]
      | LiquidityLevel.low => ["bonds", "savings"]
    | some cfg =>
      (cfg.asset_classes.filter (fun a => a.liquidity_level = tier)).map
        (fun a => a.name)
  pf.asset_values.filter (fun p => p.1 ∈ tier_asset_names ∧ p.2 > 0)

/-- `LiquidityAwareFlowStrategy._withdraw_by_return_optimization`: sell the
lowest-expected-return assets of the tier first. -/
def withdraw_by_return_optimization (cfg : PortfolioConfiguration)
    (tier_assets : Dict) (withdrawal_amount : ℚ) (withdrawal : Dict) : Dict :=
  let asset_returns := (cfg.asset_classes.filter
    (fun a => dictHasKey tier_assets a.name)).map
    (fun a => (a.name, a.expected_return, dictGet tier_assets a.name))
  let asset_returns := asset_returns.mergeSort
    (fun a b => a.2.1 ≤ b.2.1)
  (asset_returns.foldl
    (fun acc entry =>
      let remaining := acc.2
      if remaining ≤ 0 then acc
      else
        let asset_withdrawal := min remaining entry.2.2
        (dictSet acc.1 entry.1 (-asset_withdrawal), remaining - asset_withdrawal))
    (withdrawal, withdrawal_amount)).1

/-- `LiquidityAwareFlowStrategy._withdraw_proportionally` (fallback). -/
def withdraw_proportionally (tier_assets : Dict) (withdrawal_amount : ℚ)
    (withdrawal : Dict) : Dict :=
  let total_tier_value := dictTotal tier_assets
  tier_assets.foldl
    (fun acc p =>
      if p.2 > 0 then dictSet acc p.1 (-withdrawal_amount * (p.2 / total_tier_value))
      else acc)
    withdrawal

/-- `LiquidityAwareFlowStrategy._withdraw_from_liquidity_tier`: returns the
updated withdrawal map and the amount withdrawn from this tier. -/
def withdraw_from_liquidity_tier (tier : LiquidityLevel) (needed_amount : ℚ)
    (pf : PortfolioState) (withdrawal : Dict)
    (cfgOpt : Option PortfolioConfiguration) : Dict × ℚ :=
  let tier_assets := get_assets_by_liquidity_tier tier pf cfgOpt
  if tier_assets.isEmpty then (withdrawal, 0)
  else
    let total_tier_value := dictTotal tier_assets
    if total_tier_value = 0 then (withdrawal, 0)
    else
      let actual_withdrawal := min needed_amount total_tier_value
      if actual_withdrawal = 0 then (withdrawal, 0)
      else
        match cfgOpt with
        | some cfg =>
          (withdraw_by_return_optimization cfg tier_assets actual_withdrawal
            withdrawal, actual_withdrawal)
        | none =>
          (withdraw_proportionally tier_assets actual_withdrawal withdrawal,
            actual_withdrawal)

/-- `LiquidityAwareFlowStrategy.handle_expense`
(`portfolio_manager.py` lines 422-449): withdraw HIGH tier first, then
MEDIUM, then LOW. -/
def handle_expense (cfgOpt : Option PortfolioConfiguration) (expense : ℚ)
    (pf : PortfolioState) : Dict :=
  let withdrawal := (dictKeys pf.asset_values).map (fun k => (k, (0 : ℚ)))
  let step1 := withdraw_from_liquidity_tier LiquidityLevel.high expense pf
    withdrawal cfgOpt
  let remaining1 := expense - step1.2
  let step2 :=
    if remaining1 > 0 then
      withdraw_from_liquidity_tier LiquidityLevel.medium remaining1 pf
        step1.1 cfgOpt
    else (step1.1, 0)
  let remaining2 := remaining1 - step2.2
  let step3 :=
    if remaining2 > 0 then
      withdraw_from_liquidity_tier LiquidityLevel.low remaining2 pf
        step2.1 cfgOpt
    else (step2.1, 0)
  step3.1

/-!  ## PortfolioSimulator (`portfolio_manager.py` lines 585-712) -/

/-- Result of one year of portfolio simulation (`YearlyPortfolioResult`,
restricted to the fields the engine reads). -/
structure YearlyPortfolioResult where
  age : ℤ
  starting_portfolio_value : ℚ
  investment_returns : ℚ
  ending_portfolio_value : ℚ
  rebalanced : Bool
deriving DecidableEq, Repr

/-- `PortfolioSimulator._apply_returns`: distribute the total return over the
assets proportionally to the given allocation. -/
def apply_returns (pf : PortfolioState) (total_returns : ℚ) (alloc : Dict) :
    PortfolioState :=
  PortfolioState.mk <|
    pf.asset_values.map (fun p => (p.1, p.2 + total_returns * dictGet alloc p.1))

/-- `PortfolioSimulator._apply_cash_flows`: apply the flow map, then floor
every asset at 0. -/
def apply_cash_flows (pf : PortfolioState) (cash_flows : Dict) :
    PortfolioState :=
  let applied := cash_flows.foldl
    (fun acc p =>
      if dictHasKey acc p.1 then dictAdd acc p.1 p.2 else acc ++ [(p.1, p.2)])
    pf.asset_values
  PortfolioState.mk (applied.map (fun p => (p.1, max 0 p.2)))

/-- `PortfolioSimulator._maybe_rebalance`. -/
def maybe_rebalance (cfg : PortfolioConfiguration) (pf : PortfolioState) :
    PortfolioState × Bool :=
  let current_allocation := pf.get_allocation
  let target_allocation := get_target_allocation cfg
  if should_rebalance cfg current_allocation target_allocation then
    (execute_trades pf (calculate_rebalancing_trades cfg pf target_allocation), true)
  else (pf, false)

/-- `PortfolioSimulator.simulate_year` (`portfolio_manager.py` lines 606-663):
returns accrue first, then the cash flow is dispatched to the income or
expense strategy, then an optional rebalance.  `strategyCfg` is the
`portfolio_config` of the cash-flow strategy (the engine passes a strategy
constructed without one). -/
def simulate_year (cfg : PortfolioConfiguration)
    (strategyCfg : Option PortfolioConfiguration) (cash_buffer_months : ℚ)
    (pf : PortfolioState) (age : ℤ) (net_cash_flow annual_expenses : ℚ) :
    PortfolioState × YearlyPortfolioResult :=
  let starting_value := pf.total_value
  let starting_allocation := pf.get_allocation
  let investment_returns :=
    calculate_returns_by_allocation cfg starting_allocation starting_value
  let pf := apply_returns pf investment_returns starting_allocation
  let pf :=
    if net_cash_flow ≠ 0 then
      let target_allocation := get_target_allocation cfg
      let cash_flows :=
        if net_cash_flow > 0 then
          handle_income cash_buffer_months strategyCfg net_cash_flow pf
            annual_expenses target_allocation
        else handle_expense strategyCfg |net_cash_flow| pf
      apply_cash_flows pf cash_flows
    else pf
  let rebalanceStep := maybe_rebalance cfg pf
  (rebalanceStep.1,
    { age := age
      starting_portfolio_value := starting_value
      investment_returns := investment_returns
      ending_portfolio_value := rebalanceStep.1.total_value
      rebalanced := rebalanceStep.2 })

/-- Modelled from the spec: the `PortfolioSimulator(user_profile=...)`
constructor and `reset_to_initial()` used by `engine.py` are absent from
`src/` (the copy of `portfolio_manager.py` there has an older constructor);
per §4.2 the initial portfolio partitions `current_net_worth` across the
asset classes according to their configured allocation percentages, and
`reset_to_initial()` restores exactly this state. -/
def initial_portfolio_from_profile (p : UserProfile) : PortfolioState :=
  PortfolioState.mk <|
    p.portfolio.asset_classes.map
      (fun a => (a.name, p.current_net_worth * (a.allocation_percentage / 100)))

/-!  ## FIREEngine (`engine.py`) -/

/-- One row of the annual financial projection consumed by the engine
(columns `age`, `year`, `total_income`, `total_expense`). -/
structure SummaryRow where
  age : ℤ
  year : ℤ
  total_income : ℚ
  total_expense : ℚ
deriving DecidableEq, Repr

/-- Per-year output state.  The field list follows the construction site in
`FIREEngine.calculate_single_year` (`engine.py` lines 95-107); the
`YearlyState` dataclass matching it (with `net_worth`, without the superseded
`safety_buffer_amount`) is itself absent from the `src/` copy of
`data_models.py`. -/
structure YearlyState where
  age : ℤ
  year : ℤ
  total_income : ℚ
  total_expense : ℚ
  net_cash_flow : ℚ
  portfolio_value : ℚ
  net_worth : ℚ
  investment_return : ℚ
  is_sustainable : Bool
  fire_number : ℚ
  fire_progress : ℚ
deriving DecidableEq, Repr

/-- `FIREEngine.calculate_single_year` (`engine.py` lines 69-107): run one
portfolio year and derive the sustainability metrics.  Note that
`is_sustainable` compares the ending *portfolio value* against the safety
buffer, and `net_worth` is initialized to the portfolio value (it is
overwritten later by the debt tracking in `_calculate_yearly_states`). -/
def calculate_single_year (cfg : PortfolioConfiguration)
    (safety_buffer_months : ℚ) (pf : PortfolioState) (row : SummaryRow) :
    PortfolioState × YearlyState :=
  let net_cash_flow := row.total_income - row.total_expense
  let sim := simulate_year cfg none 3 pf row.age net_cash_flow row.total_expense
  let portfolio_value := sim.2.ending_portfolio_value
  let safety_buffer_amount := row.total_expense * (safety_buffer_months / 12)
  let fire_number := row.total_expense * 25
  let fire_progress := if fire_number > 0 then portfolio_value / fire_number else 0
  (sim.1,
    { age := row.age
      year := row.year
      total_income := row.total_income
      total_expense := row.total_expense
      net_cash_flow := net_cash_flow
      portfolio_value := portfolio_value
      net_worth := portfolio_value
      investment_return := sim.2.investment_returns
      is_sustainable := portfolio_value ≥ safety_buffer_amount
      fire_number := fire_number
      fire_progress := fire_progress })

/-- The loop body of `FIREEngine._calculate_yearly_states`
(`engine.py` lines 109-146), with the portfolio state and the running
`cumulative_debt` made explicit. -/
def calculate_yearly_states_go (cfg : PortfolioConfiguration)
    (safety_buffer_months : ℚ) :
    PortfolioState → ℚ → List SummaryRow → List YearlyState
  | _, _, [] => []
  | pf, cumulative_debt, row :: rows =>
    let step := calculate_single_year cfg safety_buffer_months pf row
    let s := step.2
    let portfolio_value := s.portfolio_value
    let next :=
      if portfolio_value > 0 then (s.net_worth, (0 : ℚ))
      else
        let cumulative_debt := cumulative_debt +
          (if s.net_cash_flow < 0 then |s.net_cash_flow| else 0)
        (-cumulative_debt, cumulative_debt)
    { s with net_worth := next.1 } ::
      calculate_yearly_states_go cfg safety_buffer_months step.1 next.2 rows

/-- `FIREEngine._calculate_yearly_states`: reset the portfolio to its initial
state, then process every projection row with debt tracking. -/
def calculate_yearly_states (profile : UserProfile)
    (rows : List SummaryRow) : List YearlyState :=
  calculate_yearly_states_go profile.portfolio profile.safety_buffer_months
    (initial_portfolio_from_profile profile) 0 rows

/-- Minimum of a list with a default for the empty list. -/
def listMinD (l : List ℚ) (d : ℚ) : ℚ :=
  match l with
  | [] => d
  | x :: xs => xs.foldl min x

/-- `FIRECalculationResult` (`data_models.py` lines 306-354, numeric and
boolean fields).  The source field `min_safety_buffer_ratio` is carried here
as `min_safety_buffer_quotient`. -/
structure FIRECalculationResult where
  is_fire_achievable : Bool
  fire_net_worth : ℚ
  min_net_worth_after_fire : ℚ
  final_net_worth : ℚ
  safety_buffer_months : ℚ
  min_safety_buffer_quotient : ℚ
  yearly_results : List YearlyState
  traditional_fire_number : ℚ
  traditional_fire_achieved : Bool
  total_years_simulated : ℕ
  retirement_years : ℤ
deriving DecidableEq, Repr

/-- `FIREEngine._create_calculation_result` (`engine.py` lines 148-226). -/
def create_calculation_result (profile : UserProfile) (currentYear : ℤ)
    (yearly_states : List YearlyState) : FIRECalculationResult :=
  let is_fire_achievable :=
    if yearly_states.isEmpty then false
    else yearly_states.all (fun s => s.is_sustainable)
  let expected_fire_year_index :=
    profile.expected_fire_age - profile.current_age currentYear
  let inRange := 0 ≤ expected_fire_year_index
    ∧ expected_fire_year_index < yearly_states.length
  let fire_net_worth :=
    if inRange then
      ((yearly_states.get? expected_fire_year_index.toNat).map
        (fun s => s.net_worth)).getD 0
    else 0
  let min_net_worth_after_fire :=
    if inRange then
      let post_fire_states := yearly_states.drop expected_fire_year_index.toNat
      if ! post_fire_states.isEmpty then
        listMinD (post_fire_states.map (fun s => s.net_worth)) 0
      else fire_net_worth
    else 0
  let final_net_worth :=
    match yearly_states.getLast? with
    | some s => s.net_worth
    | none => 0
  let safety_buffer_quotients := yearly_states.filterMap
    (fun s =>
      let safety_buffer_amount :=
        s.total_expense * (profile.safety_buffer_months / 12)
      if safety_buffer_amount > 0 then some (s.net_worth / safety_buffer_amount)
      else none)
  let min_safety_buffer_quotient :=
    if safety_buffer_quotients.isEmpty then 0
    else listMinD safety_buffer_quotients 0
  let traditional_fire_expenses :=
    if yearly_states.length ≥ 5 then
      ((yearly_states.take 5).map (fun s => s.total_expense)).sum / 5
    else 0
  let traditional_fire_number := traditional_fire_expenses * 25
  let traditional_fire_achieved := yearly_states.any
    (fun s => s.portfolio_value ≥ traditional_fire_number)
  { is_fire_achievable := is_fire_achievable
    fire_net_worth := fire_net_worth
    min_net_worth_after_fire := min_net_worth_after_fire
    final_net_worth := final_net_worth
    safety_buffer_months := profile.safety_buffer_months
    min_safety_buffer_quotient := min_safety_buffer_quotient
    yearly_results := yearly_states
    traditional_fire_number := traditional_fire_number
    traditional_fire_achieved := traditional_fire_achieved
    total_years_simulated := yearly_states.length
    retirement_years :=
      if 0 ≤ expected_fire_year_index then
        (yearly_states.length : ℤ) - expected_fire_year_index
      else 0 }

/-- `FIREEngine.calculate` (`engine.py` lines 56-62): yearly states followed
by result aggregation. -/
def engine_calculate (profile : UserProfile) (currentYear : ℤ)
    (rows : List SummaryRow) : FIRECalculationResult :=
  create_calculation_result profile currentYear
    (calculate_yearly_states profile rows)

/-!  ## Projection builder (`planner.py` lines 381-443) -/

/-- Modelled from the spec: `IncomeExpenseItem.get_effective_age_range` is
called by `FIREPlanner._generate_initial_projection` but is absent from the
`src/` copy of `data_models.py`.  Per §4.1, a one-time item contributes in
the single row where the age equals `start_age` (its `end_age` is ignored),
so its effective range is `(start_age, start_age)`; a recurring item keeps
its declared `(start_age, end_age)`. -/
def get_effective_age_range (item : IncomeExpenseItem) : ℤ × Option ℤ :=
  match item.frequency with
  | ItemFrequency.one_time => (item.start_age, some item.start_age)
  | ItemFrequency.recurring => (item.start_age, item.end_age)

/-- Python truthiness fallback `x or d` on an optional integer: `None` and
`0` both fall back to the default. -/
def pyOrInt (v : Option ℤ) (d : ℤ) : ℤ :=
  match v with
  | none => d
  | some x => if x = 0 then d else x

/-- The income-column cell of `FIREPlanner._generate_initial_projection`
(`planner.py` lines 398-415): growth compounds from the effective start age,
and the upper bound is `effective_end_age or 999`. -/
def income_item_cell (item : IncomeExpenseItem) (age : ℤ) : ℚ :=
  let r := get_effective_age_range item
  if r.1 ≤ age ∧ age ≤ pyOrInt r.2 999 then
    let years_since_start := (age - r.1).toNat
    let growth_factor := (1 + item.annual_growth_rate / 100) ^ years_since_start
    item.after_tax_amount_per_period * growth_factor
  else 0

/-- The expense-column cell of `FIREPlanner._generate_initial_projection`
(`planner.py` lines 417-441): like income, with the profile inflation factor
compounded in addition. -/
def expense_item_cell (profile : UserProfile) (item : IncomeExpenseItem)
    (age : ℤ) : ℚ :=
  let r := get_effective_age_range item
  if r.1 ≤ age ∧ age ≤ pyOrInt r.2 999 then
    let years_since_start := (age - r.1).toNat
    let inflation_factor := (1 + profile.inflation_rate / 100) ^ years_since_start
    let growth_factor := (1 + item.annual_growth_rate / 100) ^ years_since_start
    item.after_tax_amount_per_period * inflation_factor * growth_factor
  else 0

/-- One row of the wide-format projection table: `age`, `year`, and one cell
per item name. -/
structure WideRow where
  age : ℤ
  year : ℤ
  cells : Dict
deriving DecidableEq, Repr

/-- Integer range `lo..hi` inclusive. -/
def ageRange (lo hi : ℤ) : List ℤ :=
  (List.range (hi + 1 - lo).toNat).map (fun i => lo + i)

/-- `FIREPlanner._generate_initial_projection`: one row per age from
`current_age` through `life_expectancy`; income columns first, then expense
columns (an expense column replaces an income column of the same name, as
`data[item.name] = ...` does). -/
def generate_initial_projection (profile : UserProfile) (currentYear : ℤ)
    (income_items expense_items : List IncomeExpenseItem) : List WideRow :=
  let current_age := profile.current_age currentYear
  (ageRange current_age profile.life_expectancy).map (fun age =>
    let cells := income_items.foldl
      (fun acc item => dictSet acc item.name (income_item_cell item age)) []
    let cells := expense_items.foldl
      (fun acc item => dictSet acc item.name (expense_item_cell profile item age))
      cells
    { age := age, year := currentYear + (age - current_age), cells := cells })

/-- `FIREPlanner._create_annual_summary_from_df` (`planner.py` lines
625-644): row sums of the income and expense columns. -/
def create_annual_summary_from_df (income_items expense_items : List IncomeExpenseItem)
    (wide : List WideRow) : List SummaryRow :=
  wide.map (fun r =>
    { age := r.age
      year := r.year
      total_income := (income_items.map (fun item => dictGet r.cells item.name)).sum
      total_expense := (expense_items.map (fun item => dictGet r.cells item.name)).sum })

/-!  ## Black swan events (`black_swan_events.py`) -/

/-- The shape of an event's `apply_impact` method.  Each concrete subclass in
`black_swan_events.py` is one of these five patterns. -/
inductive ImpactKind where
  | income_mult (delta : ℚ)
  | income_mult_floored (delta floor : ℚ)
  | expense_mult (delta : ℚ)
  | mixed (income_delta expense_delta : ℚ)
  | inheritance_add
deriving DecidableEq, Repr

/-- A black swan event (`BlackSwanEvent` dataclass plus the subclass
`apply_impact` behaviour encoded as an `ImpactKind`). -/
structure BlackSwanEventM where
  event_id : String
  annual_probability : ℚ
  duration_years : ℕ
  recovery_factor : ℚ
  age_lo : ℤ
  age_hi : ℤ
  impact : ImpactKind
deriving DecidableEq, Repr

/-- Apply a function to the element at the given index. -/
def listModify {α : Type} (l : List α) (i : ℕ) (f : α → α) : List α :=
  match l, i with
  | [], _ => []
  | x :: xs, 0 => f x :: xs
  | x :: xs, n + 1 => x :: listModify xs n f

/-- `BlackSwanEvent.apply_impact` of the concrete subclasses: multiplicative
on `total_income` and/or `total_expense` (some with a floor), except
`inheritance`, which adds `2 × current_income × recovery_multiplier`. -/
def apply_impact (e : BlackSwanEventM) (rows : List SummaryRow)
    (year_idx : ℕ) (recovery_multiplier : ℚ) : List SummaryRow :=
  listModify rows year_idx (fun row =>
    match e.impact with
    | ImpactKind.income_mult delta =>
      { row with total_income := row.total_income * (1 + delta * recovery_multiplier) }
    | ImpactKind.income_mult_floored delta floor =>
      { row with total_income :=
          row.total_income * max floor (1 + delta * recovery_multiplier) }
    | ImpactKind.expense_mult delta =>
      { row with total_expense := row.total_expense * (1 + delta * recovery_multiplier) }
    | ImpactKind.mixed di de =>
      { row with
          total_income := row.total_income * (1 + di * recovery_multiplier)
          total_expense := row.total_expense * (1 + de * recovery_multiplier) }
    | ImpactKind.inheritance_add =>
      { row with total_income :=
          row.total_income + 2 * row.total_income * recovery_multiplier })

/-- `create_black_swan_events` (`black_swan_events.py` lines 460-502):
the 15 canonical events with age ranges personalized from the profile. -/
def create_black_swan_events (profile : UserProfile) (currentYear : ℤ) :
    List BlackSwanEventM :=
  let current_age := profile.current_age currentYear
  let fire_age := profile.expected_fire_age
  let working_start := max 22 current_age
  let working_end := min fire_age profile.legal_retirement_age
  let retirement_end := profile.life_expectancy
  let career_start := current_age
  let career_end := fire_age
  [{ event_id := "financial_crisis", annual_probability := 16/1000,
     duration_years := 2, recovery_factor := 8/10,
     age_lo := working_start, age_hi := retirement_end,
     impact := ImpactKind.income_mult (-4/10) },
   { event_id := "economic_recession", annual_probability := 3/100,
     duration_years := 1, recovery_factor := 9/10,
     age_lo := working_start, age_hi := retirement_end,
     impact := ImpactKind.income_mult (-25/100) },
   { event_id := "market_crash", annual_probability := 2/100,
     duration_years := 1, recovery_factor := 9/10,
     age_lo := working_start, age_hi := retirement_end,
     impact := ImpactKind.income_mult (-3/10) },
   { event_id := "hyperinflation", annual_probability := 1/100,
     duration_years := 3, recovery_factor := 7/10,
     age_lo := working_start, age_hi := retirement_end,
     impact := ImpactKind.mixed (-3/10) (3/10) },
   { event_id := "unemployment", annual_probability := 6/1000,
     duration_years := 2, recovery_factor := 4/10,
     age_lo := career_start, age_hi := career_end,
     impact := ImpactKind.income_mult_floored (-1) (1/10) },
   { event_id := "industry_collapse", annual_probability := 2/1000,
     duration_years := 3, recovery_factor := 6/10,
     age_lo := working_start, age_hi := working_end,
     impact := ImpactKind.income_mult_floored (-7/10) (1/10) },
   { event_id := "unexpected_promotion", annual_probability := 4/1000,
     duration_years := 5, recovery_factor := 1,
     age_lo := career_start, age_hi := career_end,
     impact := ImpactKind.income_mult (3/10) },
   { event_id := "major_illness", annual_probability := 4/1000,
     duration_years := 2, recovery_factor := 9/10,
     age_lo := working_start, age_hi := profile.life_expectancy,
     impact := ImpactKind.expense_mult (15/10) },
   { event_id := "long_term_care", annual_probability := 1/1000,
     duration_years := 10, recovery_factor := 5/10,
     age_lo := profile.legal_retirement_age, age_hi := profile.life_expectancy,
     impact := ImpactKind.expense_mult (12/10) },
   { event_id := "regional_conflict", annual_probability := 6/1000,
     duration_years := 2, recovery_factor := 9/10,
     age_lo := current_age, age_hi := retirement_end,
     impact := ImpactKind.mixed (-2/10) (1/10) },
   { event_id := "global_war", annual_probability := 16/10000,
     duration_years := 4, recovery_factor := 7/10,
     age_lo := current_age, age_hi := retirement_end,
     impact := ImpactKind.mixed (-6/10) (4/10) },
   { event_id := "economic_sanctions", annual_probability := 4/1000,
     duration_years := 3, recovery_factor := 8/10,
     age_lo := working_start, age_hi := retirement_end,
     impact := ImpactKind.income_mult (-3/10) },
   { event_id := "energy_crisis", annual_probability := 8/1000,
     duration_years := 2, recovery_factor := 85/100,
     age_lo := current_age, age_hi := retirement_end,
     impact := ImpactKind.mixed (-25/100) (25/100) },
   { event_id := "inheritance", annual_probability := 16/10000,
     duration_years := 1, recovery_factor := 1,
     age_lo := max 30 current_age, age_hi := min 70 retirement_end,
     impact := ImpactKind.inheritance_add },
   { event_id := "investment_windfall", annual_probability := 2/10000,
     duration_years := 1, recovery_factor := 1,
     age_lo := working_start, age_hi := working_end,
     impact := ImpactKind.income_mult 3 }]

/-!  ## Monte Carlo simulator (`monte_carlo.py`)

The Python generators (`random` / `np.random`, both reseeded together from
the same seed) are modelled by a single deterministic pseudo-random state of
type `ℕ` threaded explicitly; the draws below are a deterministic stand-in
for the Mersenne-Twister stream, which is all the determinism claims depend
on (the exact IEEE-754 distribution values are outside the model). -/

/-- Advance the modelled generator state (a linear congruential step). -/
def rng_next (s : ℕ) : ℕ := (1664525 * s + 1013904223) % 4294967296

/-- `random.random()`: a uniform draw in `[0, 1)` together with the next
state. -/
def rng_unit (s : ℕ) : ℚ × ℕ :=
  let next := rng_next s
  ((next % 1048576 : ℕ) / 1048576, next)

/-- `np.random.normal(mean, sd)`: a location-scale draw together with the
next state (stand-in distribution). -/
def rng_normal (mean sd : ℚ) (s : ℕ) : ℚ × ℕ :=
  let u := rng_unit s
  (mean + sd * (2 * u.1 - 1), u.2)

/-- `random.seed(seed)` / `np.random.seed(seed)`: the generator state reached
from a seed. -/
def rng_seed (seed : ℕ) : ℕ := rng_next seed

/-- `SimulationSettings` (`data_models.py` lines 400-429). -/
structure SimulationSettings where
  num_simulations : ℕ
  confidence_level : ℚ
  include_black_swan_events : Bool
  income_base_volatility : ℚ
  income_minimum_factor : ℚ
  expense_base_volatility : ℚ
  expense_minimum_factor : ℚ
deriving DecidableEq, Repr

/-- The default `SimulationSettings` (also the explicit fallback used by
`MonteCarloSimulator.__init__`). -/
def defaultSimulationSettings : SimulationSettings :=
  { num_simulations := 1000
    confidence_level := 95/100
    include_black_swan_events := true
    income_base_volatility := 1/10
    income_minimum_factor := 1/10
    expense_base_volatility := 1/20
    expense_minimum_factor := 1/2 }

/-- `MonteCarloSimulator._generate_income_variation`: one multiplier per
row; a clamped normal draw before FIRE age, exactly 1 afterwards. -/
def generate_income_variation (settings : SimulationSettings)
    (fire_age : ℤ) (rows : List SummaryRow) (rng : ℕ) : List ℚ × ℕ :=
  rows.foldl
    (fun acc row =>
      if row.age < fire_age then
        let d := rng_normal 1 settings.income_base_volatility acc.2
        (acc.1 ++ [max settings.income_minimum_factor d.1], d.2)
      else (acc.1 ++ [1], acc.2))
    ([], rng)

/-- `MonteCarloSimulator._generate_expense_variation`: one clamped normal
draw per row over the whole projection. -/
def generate_expense_variation (settings : SimulationSettings)
    (rows : List SummaryRow) (rng : ℕ) : List ℚ × ℕ :=
  rows.foldl
    (fun acc _row =>
      let d := rng_normal 1 settings.expense_base_volatility acc.2
      (acc.1 ++ [max settings.expense_minimum_factor d.1], d.2))
    ([], rng)

/-- `MonteCarloSimulator._simulate_black_swan_events`: Bernoulli trials over
every event whose age range contains the current age. -/
def simulate_black_swan_events (all_events : List BlackSwanEventM)
    (age : ℤ) (rng : ℕ) : List BlackSwanEventM × ℕ :=
  all_events.foldl
    (fun acc event =>
      if event.age_lo ≤ age ∧ age ≤ event.age_hi then
        let d := rng_unit acc.2
        if d.1 < event.annual_probability then (acc.1 ++ [event], d.2)
        else (acc.1, d.2)
      else acc)
    ([], rng)

/-- The per-year state of `_apply_black_swan_events`: the scenario rows so
far, the triggered event ids, the `active_events` map
(`event_id → (event, years_remaining)` in insertion order), and the
generator state. -/
structure BlackSwanLoopState where
  rows : List SummaryRow
  triggered_event_ids : List String
  active_events : List (String × BlackSwanEventM × ℕ)
  rng : ℕ

/-- One year of `MonteCarloSimulator._apply_black_swan_events`
(`monte_carlo.py` lines 317-366): trigger new events (suppressing ids that
are already active), apply them at full strength, then replay the previously
active events at their recovery factor and expire them. -/
def black_swan_year (all_events : List BlackSwanEventM) (st : BlackSwanLoopState)
    (year_idx : ℕ) : BlackSwanLoopState :=
  let current_age := ((st.rows.get? year_idx).map (fun r => r.age)).getD 0
  let sim := simulate_black_swan_events all_events current_age st.rng
  let new_events := sim.1
  let reg := new_events.foldl
    (fun (acc : List BlackSwanEventM × List String ×
        List (String × BlackSwanEventM × ℕ)) event =>
      if (acc.2.2.any (fun p => p.1 = event.event_id)) then acc
      else
        (acc.1 ++ [event], acc.2.1 ++ [event.event_id],
          if event.duration_years > 1 then
            acc.2.2 ++ [(event.event_id, event, event.duration_years - 1)]
          else acc.2.2))
    ([], st.triggered_event_ids, st.active_events)
  let actually_triggered := reg.1
  let rows := actually_triggered.foldl
    (fun rows event => apply_impact event rows year_idx 1) st.rows
  let newly_active_ids := actually_triggered.map (fun e => e.event_id)
  let ongoing := reg.2.2.foldl
    (fun (acc : List SummaryRow × List (String × BlackSwanEventM × ℕ)) entry =>
      if entry.1 ∈ newly_active_ids then acc
      else
        let rows := apply_impact entry.2.1 acc.1 year_idx entry.2.1.recovery_factor
        let remaining := entry.2.2 - 1
        if remaining ≤ 0 then
          (rows, acc.2.filter (fun p => p.1 ≠ entry.1))
        else
          (rows, acc.2.map (fun p =>
            if p.1 = entry.1 then (p.1, entry.2.1, remaining) else p))
    )
    (rows, reg.2.2)
  { rows := ongoing.1
    triggered_event_ids := reg.2.1
    active_events := ongoing.2
    rng := sim.2 }

/-- `MonteCarloSimulator._apply_black_swan_events`: fold the yearly step over
every row index. -/
def apply_black_swan_events (all_events : List BlackSwanEventM)
    (rows : List SummaryRow) (rng : ℕ) :
    List SummaryRow × List String × ℕ :=
  let final := (List.range rows.length).foldl (black_swan_year all_events)
    { rows := rows, triggered_event_ids := [], active_events := [], rng := rng }
  (final.rows, final.triggered_event_ids, final.rng)

/-- `EngineInput` (`engine.py` lines 16-37). -/
structure EngineInput where
  user_profile : UserProfile
  annual_financial_projection : List SummaryRow
  detailed_projection : Option (List WideRow) := none
  income_items : Option (List IncomeExpenseItem) := none
deriving Repr

/-- Mean of a list (0 for the empty list). -/
def listMean (l : List ℚ) : ℚ :=
  if l.isEmpty then 0 else l.sum / l.length

/-- Maximum of a list with a default for the empty list. -/
def listMaxD (l : List ℚ) (d : ℚ) : ℚ :=
  match l with
  | [] => d
  | x :: xs => xs.foldl max x

/-- `np.percentile(l, q)` with the default linear interpolation. -/
def percentile (l : List ℚ) (q : ℚ) : ℚ :=
  let s := l.mergeSort (fun a b => decide (a ≤ b))
  if s.isEmpty then 0
  else
    let n := s.length
    let pos := ((n : ℚ) - 1) * q / 100
    let lo := (Int.floor pos).toNat
    let frac := pos - (lo : ℚ)
    let vlo := (s.get? lo).getD 0
    let vhi := (s.get? (lo + 1)).getD vlo
    vlo + frac * (vhi - vlo)

/-- `collections.Counter` over a list of ids: counts keyed in first-occurrence
order. -/
def countOccurrences (l : List String) : List (String × ℕ) :=
  l.foldl
    (fun acc k =>
      if acc.any (fun p => p.1 = k) then
        acc.map (fun p => if p.1 = k then (p.1, p.2 + 1) else p)
      else acc ++ [(k, 1)])
    []

/-- `Counter.most_common()`: counts sorted descending (stable). -/
def mostCommon (l : List String) : List (String × ℕ) :=
  (countOccurrences l).mergeSort (fun a b => decide (b.2 ≤ a.2))

/-- The per-scenario record stored in `simulation_data`
(`monte_carlo.py` lines 147-155). -/
structure SimRecord where
  final_net_worth : ℚ
  minimum_net_worth : ℚ
  fire_success : Bool
  black_swan_events : List String
deriving DecidableEq, Repr

/-- The event-related part of the result
(`black_swan_impact_analysis` dict built in `_analyze_black_swan_impact`;
here a record, with `[]`/`0` standing for absent keys). -/
structure BlackSwanImpactAnalysis where
  worst_10_percent_avg_net_worth : ℚ
  worst_10_percent_success_rate : ℚ
  black_swan_impact_severity : ℚ
  most_frequent_events : List (String × ℕ)
  total_events_triggered : ℕ
  avg_events_per_sim : ℚ
deriving DecidableEq, Repr

/-- `MonteCarloResult` (`monte_carlo.py` lines 16-51).  The
standard-deviation and resilience-score fields are omitted from the model
(they involve a square root, which has no exact rational value); no claim
refers to them. -/
structure MonteCarloResultM where
  success_rate : ℚ
  total_simulations : ℕ
  successful_simulations : ℕ
  mean_final_net_worth : ℚ
  median_final_net_worth : ℚ
  percentile_5_net_worth : ℚ
  percentile_95_net_worth : ℚ
  worst_case_final_net_worth : ℚ
  best_case_final_net_worth : ℚ
  mean_minimum_net_worth : ℚ
  median_minimum_net_worth : ℚ
  percentile_5_minimum_net_worth : ℚ
  percentile_25_minimum_net_worth : ℚ
  percentile_75_minimum_net_worth : ℚ
  percentile_95_minimum_net_worth : ℚ
  worst_case_minimum_net_worth : ℚ
  best_case_minimum_net_worth : ℚ
  black_swan_impact_analysis : Option BlackSwanImpactAnalysis
  recommended_emergency_fund : Option ℚ
deriving DecidableEq, Repr

/-- `MonteCarloSimulator` state: the engine data it keeps (`engine.profile`
and a copy of `engine.projection_df` as `base_df`), the settings, the seed,
the personalized event library, and the ambient generator state standing for
the global `random`/`np.random` generators. -/
structure MonteCarloSimulator where
  profile : UserProfile
  currentYear : ℤ
  settings : SimulationSettings
  base_df : List SummaryRow
  seed : Option ℕ
  rng : ℕ
  all_events : List BlackSwanEventM

/-- `MonteCarloSimulator.__init__` (`monte_carlo.py` lines 56-88): fall back
to the default settings, seed the generators if a seed is given, and build
the personalized event library. -/
def mk_monte_carlo_simulator (profile : UserProfile) (currentYear : ℤ)
    (base_df : List SummaryRow) (settings : Option SimulationSettings)
    (seed : Option ℕ) (ambient_rng : ℕ) : MonteCarloSimulator :=
  { profile := profile
    currentYear := currentYear
    settings := settings.getD defaultSimulationSettings
    base_df := base_df
    seed := seed
    rng :=
      match seed with
      | some s => rng_seed s
      | none => ambient_rng
    all_events := create_black_swan_events profile currentYear }

/-- `MonteCarloSimulator._generate_random_scenario`
(`monte_carlo.py` lines 216-236): income variation, then expense variation,
then (optionally) black swan events; returns the scenario rows, the
triggered event ids, and the next generator state. -/
def generate_random_scenario (sim : MonteCarloSimulator) (rng : ℕ) :
    (List SummaryRow × List String) × ℕ :=
  let inc := generate_income_variation sim.settings
    sim.profile.expected_fire_age sim.base_df rng
  let scen := List.zipWith
    (fun (row : SummaryRow) m => { row with total_income := row.total_income * m })
    sim.base_df inc.1
  let exp := generate_expense_variation sim.settings scen inc.2
  let scen := List.zipWith
    (fun (row : SummaryRow) m => { row with total_expense := row.total_expense * m })
    scen exp.1
  if sim.settings.include_black_swan_events then
    let bs := apply_black_swan_events sim.all_events scen exp.2
    ((bs.1, bs.2.1), bs.2.2)
  else ((scen, []), exp.2)

/-- The loop body of `run_simulation`: run one scenario through a fresh
engine and record its outcome. -/
def run_one_scenario (sim : MonteCarloSimulator)
    (acc : List SimRecord × ℕ) : List SimRecord × ℕ :=
  let scen := generate_random_scenario sim acc.2
  let result := engine_calculate sim.profile sim.currentYear scen.1.1
  let minimum_net_worth :=
    if ! result.yearly_results.isEmpty then
      listMinD (result.yearly_results.map (fun s => s.net_worth)) 0
    else result.final_net_worth
  (acc.1 ++
    [{ final_net_worth := result.final_net_worth
       minimum_net_worth := minimum_net_worth
       fire_success := result.is_fire_achievable
       black_swan_events := scen.1.2 }],
    scen.2)

/-- `MonteCarloSimulator._analyze_black_swan_impact`
(`monte_carlo.py` lines 456-497). -/
def analyze_black_swan_impact (simulation_data : List SimRecord) :
    BlackSwanImpactAnalysis :=
  let worst_count := max 1 (simulation_data.length / 10)
  let worst_10_percent := (simulation_data.mergeSort
    (fun a b => decide (a.final_net_worth ≤ b.final_net_worth))).take worst_count
  let avg_worst := listMean (worst_10_percent.map (fun r => r.final_net_worth))
  let success_rate_worst :=
    ((worst_10_percent.filter (fun r => r.fire_success)).length : ℚ) /
      (worst_10_percent.length : ℚ)
  let all_event_ids := simulation_data.foldl
    (fun acc r => acc ++ r.black_swan_events) []
  { worst_10_percent_avg_net_worth := avg_worst
    worst_10_percent_success_rate := success_rate_worst
    black_swan_impact_severity := max 0 (1 - success_rate_worst)
    most_frequent_events := if all_event_ids.isEmpty then [] else mostCommon all_event_ids
    total_events_triggered := all_event_ids.length
    avg_events_per_sim :=
      if all_event_ids.isEmpty then 0
      else (all_event_ids.length : ℚ) / (simulation_data.length : ℚ) }

/-- `MonteCarloSimulator._recommend_emergency_fund`
(`monte_carlo.py` lines 558-584); `UserProfile` has no `annual_expenses`
attribute, so the base-table fallback branch is the live one. -/
def recommend_emergency_fund (base_df : List SummaryRow)
    (simulation_data : List SimRecord) : ℚ :=
  let annual_expenses := listMean (base_df.map (fun r => r.total_expense))
  let success_rate :=
    ((simulation_data.filter (fun r => r.fire_success)).length : ℚ) /
      (simulation_data.length : ℚ)
  let emergency_months : ℚ :=
    if success_rate ≥ 9/10 then 6
    else if success_rate ≥ 7/10 then 12
    else 18
  annual_expenses * emergency_months / 12

/-- `MonteCarloSimulator.run_simulation` (`monte_carlo.py` lines 90-214):
re-seed if a seed was supplied, run every scenario, aggregate.  Returns the
result together with the final generator state (the Python version leaves
the global generators advanced).  The progress callback is pure side effect
and is not modelled. -/
def run_simulation (sim : MonteCarloSimulator) : MonteCarloResultM × ℕ :=
  let rng0 :=
    match sim.seed with
    | some s => rng_seed s
    | none => sim.rng
  let runs := (List.range sim.settings.num_simulations).foldl
    (fun acc _ => run_one_scenario sim acc) ([], rng0)
  let simulation_data := runs.1
  let final_net_worths := simulation_data.map (fun r => r.final_net_worth)
  let minimum_net_worths := simulation_data.map (fun r => r.minimum_net_worth)
  let successful_runs := (simulation_data.filter (fun r => r.fire_success)).length
  let analysis :=
    if sim.settings.include_black_swan_events ∧ ! simulation_data.isEmpty then
      some (analyze_black_swan_impact simulation_data)
    else none
  let emergency_fund :=
    if sim.settings.include_black_swan_events ∧ ! simulation_data.isEmpty then
      some (recommend_emergency_fund sim.base_df simulation_data)
    else none
  ({ success_rate := (successful_runs : ℚ) / (sim.settings.num_simulations : ℚ)
     total_simulations := sim.settings.num_simulations
     successful_simulations := successful_runs
     mean_final_net_worth := listMean final_net_worths
     median_final_net_worth := percentile final_net_worths 50
     percentile_5_net_worth := percentile final_net_worths 5
     percentile_95_net_worth := percentile final_net_worths 95
     worst_case_final_net_worth := listMinD final_net_worths 0
     best_case_final_net_worth := listMaxD final_net_worths 0
     mean_minimum_net_worth := listMean minimum_net_worths
     median_minimum_net_worth := percentile minimum_net_worths 50
     percentile_5_minimum_net_worth := percentile minimum_net_worths 5
     percentile_25_minimum_net_worth := percentile minimum_net_worths 25
     percentile_75_minimum_net_worth := percentile minimum_net_worths 75
     percentile_95_minimum_net_worth := percentile minimum_net_worths 95
     worst_case_minimum_net_worth := listMinD minimum_net_worths 0
     best_case_minimum_net_worth := listMaxD minimum_net_worths 0
     black_swan_impact_analysis := analysis
     recommended_emergency_fund := emergency_fund },
    runs.2)

/-!  ## FIREAdvisor (`advisor.py`) -/

/-- The numeric payload of the four recommendation dataclasses
(`advisor.py` lines 33-87); the presentation strings `title`/`description`
are not modelled. -/
inductive RecommendationParams where
  | early_retirement (optimal_fire_age years_saved : ℤ)
  | delayed_retirement (required_fire_age years_delayed : ℤ)
  | income_adjustment (required_income_multiplier additional_income_needed : ℚ)
  | expense_reduction (required_expense_reduction_rate annual_savings_needed : ℚ)
deriving DecidableEq, Repr

/-- The common shape of the recommendation dataclasses. -/
structure AdvisorRecommendation where
  recommendation_type : String
  is_achievable : Bool
  fire_calculation_result : Option FIRECalculationResult := none
  monte_carlo_success_rate : Option ℚ := none
  params : RecommendationParams
deriving Repr

/-- Python truthiness of an optional integer (`if required_age:`). -/
def py_truthy_int (v : Option ℤ) : Bool :=
  match v with
  | none => false
  | some x => x ≠ 0

/-- Python truthiness of an optional rational (`if optimal_multiplier:`). -/
def py_truthy_rat (v : Option ℚ) : Bool :=
  match v with
  | none => false
  | some x => x ≠ 0

/-- The `while test_age >= current_age` loop of
`FIREAdvisor._find_earliest_retirement` (`advisor.py` lines 134-152): each
candidate age re-runs the engine over the *unchanged* annual projection with
only `expected_fire_age` modified. -/
def earliest_retirement_loop (input : EngineInput) (currentYear : ℤ)
    (current_age : ℤ) (test_age earliest_achievable_age : ℤ) : ℤ :=
  if h : current_age ≤ test_age then
    let modified_profile :=
      { input.user_profile with expected_fire_age := test_age }
    let result := engine_calculate modified_profile currentYear
      input.annual_financial_projection
    if result.is_fire_achievable then
      earliest_retirement_loop input currentYear current_age (test_age - 1) test_age
    else earliest_achievable_age
  else earliest_achievable_age
termination_by (test_age + 1 - current_age).toNat
decreasing_by omega

/-- The age decision of `FIREAdvisor._find_earliest_retirement`: the loop
result, reported only when it improves on the expected FIRE age. -/
def find_earliest_retirement_age (input : EngineInput) (currentYear : ℤ) :
    Option ℤ :=
  let current_expected_age := input.user_profile.expected_fire_age
  let current_age := input.user_profile.current_age currentYear
  let earliest_achievable_age := earliest_retirement_loop input currentYear
    current_age (current_expected_age - 1) current_expected_age
  if earliest_achievable_age < current_expected_age then
    some earliest_achievable_age
  else none

/-- `FIREAdvisor._find_earliest_retirement` (`advisor.py` lines 125-199):
build the full recommendation, attaching the engine result at the optimal
age and a 1000-sample Monte Carlo success rate.  Returns the recommendation
and the advanced generator state. -/
def find_earliest_retirement (input : EngineInput) (currentYear : ℤ)
    (rng : ℕ) : Option AdvisorRecommendation × ℕ :=
  let current_expected_age := input.user_profile.expected_fire_age
  match find_earliest_retirement_age input currentYear with
  | some earliest_achievable_age =>
    let optimal_profile :=
      { input.user_profile with expected_fire_age := earliest_achievable_age }
    let optimal_result := engine_calculate optimal_profile currentYear
      input.annual_financial_projection
    let mc_sim := mk_monte_carlo_simulator optimal_profile currentYear
      input.annual_financial_projection
      (some { num_simulations := 1000
              confidence_level := 95/100
              include_black_swan_events := true
              income_base_volatility := 1/10
              income_minimum_factor := 1/10
              expense_base_volatility := 1/20
              expense_minimum_factor := 1/2 })
      none rng
    let mc := run_simulation mc_sim
    (some
      { recommendation_type := "early_retirement"
        is_achievable := true
        fire_calculation_result := some optimal_result
        monte_carlo_success_rate := some mc.1.success_rate
        params := RecommendationParams.early_retirement earliest_achievable_age
          (current_expected_age - earliest_achievable_age) },
      mc.2)
  | none => (none, rng)

/-- Replace the first row carrying the given age (`df[age_mask].index[0]`). -/
def update_first_row_at_age (rows : List WideRow) (age : ℤ)
    (f : WideRow → WideRow) : List WideRow :=
  match rows with
  | [] => []
  | r :: rs =>
    if r.age = age then f r :: rs else r :: update_first_row_at_age rs age f

/-- `FIREAdvisor._extend_work_income_to_age` (`advisor.py` lines 439-489):
extend every income item whose (truthy) `end_age` equals the current
expected FIRE age out to the target age, regrowing from its start age;
raises (`error`) when the detailed projection or the income items are
missing. -/
def extend_work_income_to_age (input : EngineInput) (target_fire_age : ℤ) :
    Except Unit (List WideRow) :=
  match input.detailed_projection, input.income_items with
  | some detailed, some items =>
    if items.isEmpty then Except.error ()
    else
      let current_fire_age := input.user_profile.expected_fire_age
      if target_fire_age ≤ current_fire_age then Except.ok detailed
      else
        let work_income_items := items.filter (fun item =>
          py_truthy_int item.end_age ∧ item.end_age = some current_fire_age)
        Except.ok <| work_income_items.foldl
          (fun rows item =>
            let end_age := item.end_age.getD 0
            (ageRange (end_age + 1) target_fire_age).foldl
              (fun rows age =>
                if rows.any (fun r => r.age = age) then
                  let years_since_start := (age - item.start_age).toNat
                  let growth_factor :=
                    (1 + item.annual_growth_rate / 100) ^ years_since_start
                  let extended_income :=
                    item.after_tax_amount_per_period * growth_factor
                  update_first_row_at_age rows age
                    (fun r => { r with cells := dictSet r.cells item.name extended_income })
                else rows)
              rows)
          detailed
  | _, _ => Except.error ()

/-- `FIREAdvisor._create_annual_summary_from_detailed_df`
(`advisor.py` lines 491-519): income totals over the income item columns,
expense totals over every remaining column. -/
def create_annual_summary_from_detailed (input : EngineInput)
    (detailed : List WideRow) : Except Unit (List SummaryRow) :=
  match input.income_items with
  | none => Except.error ()
  | some items =>
    if items.isEmpty then Except.error ()
    else
      let income_cols := items.map (fun item => item.name)
      Except.ok <| detailed.map (fun r =>
        { age := r.age
          year := r.year
          total_income := (income_cols.map (fun c => dictGet r.cells c)).sum
          total_expense :=
            ((r.cells.filter (fun p => p.1 ∉ income_cols)).map
              (fun p => p.2)).sum })

/-- The `while test_age <= legal_retirement_age` loop of
`FIREAdvisor._find_required_delayed_retirement` (`advisor.py` lines
212-240). -/
def delayed_retirement_loop (input : EngineInput) (currentYear : ℤ)
    (legal_retirement_age : ℤ) (test_age : ℤ) : Except Unit (Option ℤ) :=
  if h : test_age ≤ legal_retirement_age then do
    let modified_detailed ← extend_work_income_to_age input test_age
    let modified_annual ← create_annual_summary_from_detailed input
      modified_detailed
    let modified_profile :=
      { input.user_profile with expected_fire_age := test_age }
    let result := engine_calculate modified_profile currentYear modified_annual
    if result.is_fire_achievable then Except.ok (some test_age)
    else delayed_retirement_loop input currentYear legal_retirement_age (test_age + 1)
  else Except.ok none
termination_by (legal_retirement_age + 1 - test_age).toNat
decreasing_by omega

/-- `FIREAdvisor._find_required_delayed_retirement`
(`advisor.py` lines 201-312): the first sustainable delayed age, or the
infeasibility sentinel at the legal retirement age — both typed
`"delayed_retirement"`, distinguished only by `is_achievable`. -/
def find_required_delayed_retirement (input : EngineInput) (currentYear : ℤ) :
    Except Unit (Option AdvisorRecommendation) := do
  let current_expected_age := input.user_profile.expected_fire_age
  let legal_retirement_age := input.user_profile.legal_retirement_age
  let required ← delayed_retirement_loop input currentYear legal_retirement_age
    (current_expected_age + 1)
  if py_truthy_int required then
    let required_age := required.getD 0
    let required_detailed ← extend_work_income_to_age input required_age
    let required_annual ← create_annual_summary_from_detailed input
      required_detailed
    let required_profile :=
      { input.user_profile with expected_fire_age := required_age }
    let required_result := engine_calculate required_profile currentYear
      required_annual
    Except.ok (some
      { recommendation_type := "delayed_retirement"
        is_achievable := true
        fire_calculation_result := some required_result
        params := RecommendationParams.delayed_retirement required_age
          (required_age - current_expected_age) })
  else
    let max_delay_age := legal_retirement_age
    let max_delay_detailed ← extend_work_income_to_age input max_delay_age
    let max_delay_annual ← create_annual_summary_from_detailed input
      max_delay_detailed
    let max_delay_profile :=
      { input.user_profile with expected_fire_age := max_delay_age }
    let max_delay_result := engine_calculate max_delay_profile currentYear
      max_delay_annual
    Except.ok (some
      { recommendation_type := "delayed_retirement"
        is_achievable := false
        fire_calculation_result := some max_delay_result
        params := RecommendationParams.delayed_retirement max_delay_age
          (max_delay_age - current_expected_age) })

/-- The `while high - low > epsilon` bisection of the income/expense search
(`advisor.py` lines 324-342 and 386-405), written with a fuel parameter;
the callers pass fuel `64`, which strictly exceeds the iteration count
(the gap halves each round: `4 / 2⁹ < 0.01` and `0.8 / 2¹⁰ < 0.001`). -/
def bisect_loop (achievable : ℚ → Bool) (epsilon : ℚ) :
    ℕ → ℚ → ℚ → Option ℚ → Option ℚ
  | 0, _, _, opt => opt
  | fuel + 1, low, high, opt =>
    if high - low > epsilon then
      let mid := (low + high) / 2
      if achievable mid then bisect_loop achievable epsilon fuel low mid (some mid)
      else bisect_loop achievable epsilon fuel mid high opt
    else opt

/-- `FIREAdvisor._find_required_income_increase` (`advisor.py` lines
314-374): bisect a whole-life income multiplier in `[1, 5]` to precision
`0.01`; the recommendation is typed `"income_adjustment"`.  The `iloc[0]`
access raises (`error`) on an empty projection. -/
def find_required_income_increase (input : EngineInput) (currentYear : ℤ) :
    Except Unit (Option AdvisorRecommendation) :=
  let achievable := fun (m : ℚ) =>
    let modified := input.annual_financial_projection.map
      (fun r => { r with total_income := r.total_income * m })
    (engine_calculate input.user_profile currentYear modified).is_fire_achievable
  let optimal_multiplier := bisect_loop achievable (1/100) 64 1 5 none
  if py_truthy_rat optimal_multiplier then
    let m := optimal_multiplier.getD 0
    match input.annual_financial_projection.head? with
    | none => Except.error ()
    | some first =>
      let additional_income := first.total_income * (m - 1)
      let final_rows := input.annual_financial_projection.map
        (fun r => { r with total_income := r.total_income * m })
      let final_result := engine_calculate input.user_profile currentYear final_rows
      Except.ok (some
        { recommendation_type := "income_adjustment"
          is_achievable := true
          fire_calculation_result := some final_result
          params := RecommendationParams.income_adjustment m additional_income })
  else Except.ok none

/-- `FIREAdvisor._find_required_expense_reduction` (`advisor.py` lines
376-437): bisect a reduction fraction in `[0, 0.8]` to precision `0.001`;
the recommendation is typed `"expense_reduction"`. -/
def find_required_expense_reduction (input : EngineInput) (currentYear : ℤ) :
    Except Unit (Option AdvisorRecommendation) :=
  let achievable := fun (mid : ℚ) =>
    let reduction_factor := 1 - mid
    let modified := input.annual_financial_projection.map
      (fun r => { r with total_expense := r.total_expense * reduction_factor })
    (engine_calculate input.user_profile currentYear modified).is_fire_achievable
  let optimal_reduction := bisect_loop achievable (1/1000) 64 0 (8/10) none
  if py_truthy_rat optimal_reduction then
    let r := optimal_reduction.getD 0
    match input.annual_financial_projection.head? with
    | none => Except.error ()
    | some first =>
      let annual_savings := first.total_expense * r
      let final_rows := input.annual_financial_projection.map
        (fun row => { row with total_expense := row.total_expense * (1 - r) })
      let final_result := engine_calculate input.user_profile currentYear final_rows
      Except.ok (some
        { recommendation_type := "expense_reduction"
          is_achievable := true
          fire_calculation_result := some final_result
          params := RecommendationParams.expense_reduction r annual_savings })
  else Except.ok none

/-- `FIREAdvisor.get_all_recommendations` (`advisor.py` lines 100-123):
one early-retirement recommendation when the base plan is achievable,
otherwise up to three alternatives; internal exceptions propagate to the
caller as `error`. -/
def get_all_recommendations (input : EngineInput) (currentYear : ℤ)
    (rng : ℕ) : Except Unit (List AdvisorRecommendation) :=
  let base_result := engine_calculate input.user_profile currentYear
    input.annual_financial_projection
  if base_result.is_fire_achievable then
    let early := find_earliest_retirement input currentYear rng
    Except.ok (match early.1 with
      | some r => [r]
      | none => [])
  else do
    let delayed ← find_required_delayed_retirement input currentYear
    let income ← find_required_income_increase input currentYear
    let expense ← find_required_expense_reduction input currentYear
    Except.ok ([delayed, income, expense].filterMap id)

/-!  ## FIREPlanner result assembly (`planner.py` lines 646-725) -/

/-- `PlannerResults` (`planner_models.py` lines 39-49, timestamp omitted). -/
structure PlannerResults where
  fire_calculation : FIRECalculationResult
  monte_carlo_success_rate : Option ℚ
  recommendations : List AdvisorRecommendation
deriving Repr

/-- The result assembly of `FIREPlanner._run_calculations`
(`planner.py` lines 646-725): the FIRE calculation always enters the bundle;
the Monte Carlo and advisor steps are each wrapped in `try/except`, modelled
here by `Except` outcomes — an `error` (an internal exception) leaves the
success rate `None` and the recommendations empty instead of aborting. -/
def run_calculations (fire_result : FIRECalculationResult)
    (monte_carlo_step : Except Unit MonteCarloResultM)
    (advisor_step : Except Unit (List AdvisorRecommendation)) :
    PlannerResults :=
  let monte_carlo_success_rate :=
    match monte_carlo_step with
    | Except.ok r => some r.success_rate
    | Except.error _ => none
  let recommendations :=
    match advisor_step with
    | Except.ok recs => recs
    | Except.error _ => []
  { fire_calculation := fire_result
    monte_carlo_success_rate := monte_carlo_success_rate
    recommendations := recommendations }

/-!  ## Specification-side definitions

The next definitions follow the *words of the specification claims* (not the
source); they exist solely to be compared against the corresponding source
embeddings in refinement claims. -/

/-- The perturbed annual summary described by claim C4: every income stream
whose `end_age` equals the original `expected_fire_age` is truncated to 0
for ages beyond `test_age`; the engine then consumes the row sums. -/
def spec_truncated_summary (input : EngineInput) (test_age : ℤ) :
    Option (List SummaryRow) :=
  match input.detailed_projection, input.income_items with
  | some detailed, some items =>
    let fire_age := input.user_profile.expected_fire_age
    let work_streams := items.filter (fun item => item.end_age = some fire_age)
    let truncated := detailed.map (fun r =>
      if test_age < r.age then
        let cells := work_streams.foldl
          (fun cells item => dictSet cells item.name 0) r.cells
        { r with cells := cells }
      else r)
    (create_annual_summary_from_detailed input truncated).toOption
  | _, _ => none

/-- The walk of claim C4 over candidate ages, evaluating the truncated
projection at each step and stopping at the first unsustainable age. -/
def spec_earliest_loop (input : EngineInput) (currentYear : ℤ)
    (current_age : ℤ) (test_age earliest_achievable_age : ℤ) : ℤ :=
  if _h : current_age ≤ test_age then
    match spec_truncated_summary input test_age with
    | none => earliest_achievable_age
    | some summary =>
      let modified_profile :=
        { input.user_profile with expected_fire_age := test_age }
      if (engine_calculate modified_profile currentYear summary).is_fire_achievable then
        spec_earliest_loop input currentYear current_age (test_age - 1) test_age
      else earliest_achievable_age
  else earliest_achievable_age
termination_by (test_age + 1 - current_age).toNat
decreasing_by omega

/-- The earliest-retirement age claim C4 describes: the last sustainable age
of the truncated-projection walk, reported when it improves on the expected
FIRE age. -/
def spec_find_earliest_retirement_age (input : EngineInput)
    (currentYear : ℤ) : Option ℤ :=
  let current_expected_age := input.user_profile.expected_fire_age
  let current_age := input.user_profile.current_age currentYear
  let earliest := spec_earliest_loop input currentYear current_age
    (current_expected_age - 1) current_expected_age
  if earliest < current_expected_age then some earliest else none

/-- The income handling described by claim C6: the buffer shortfall is
computed from the current value of the HIGH-liquidity assets *of the
configuration*, the deposit goes to the *first* HIGH-liquidity asset, and
the remainder is spread over the non-HIGH assets proportionally to their
renormalized target weights. -/
def spec_handle_income (cash_buffer_months : ℚ) (cfg : PortfolioConfiguration)
    (income : ℚ) (pf : PortfolioState) (annual_expenses : ℚ)
    (target_allocation : Dict) : Dict :=
  let required_buffer := annual_expenses * (cash_buffer_months / 12)
  let high_assets := cfg.asset_classes.filter
    (fun a => a.liquidity_level = LiquidityLevel.high)
  let current_high_value :=
    (high_assets.map (fun a => dictGet pf.asset_values a.name)).sum
  let shortfall := max 0 (required_buffer - current_high_value)
  let deposit := min income shortfall
  let base := (dictKeys target_allocation).map (fun k => (k, (0 : ℚ)))
  let with_deposit :=
    match high_assets.head? with
    | some a => dictSet base a.name deposit
    | none => base
  let remaining := income - deposit
  let non_high := cfg.asset_classes.filter
    (fun a => a.liquidity_level ≠ LiquidityLevel.high)
  let weight_total := (non_high.map (fun a => dictGet target_allocation a.name)).sum
  if remaining > 0 ∧ weight_total > 0 then
    non_high.foldl
      (fun acc a =>
        dictAdd acc a.name
          (remaining * (dictGet target_allocation a.name / weight_total)))
      with_deposit
  else with_deposit

/-!  ## Concrete inputs used by witnesses and counterexamples -/

/-- A single HIGH-liquidity cash asset at 100% allocation, 0% return. -/
def exCashAsset : AssetClass :=
  { name := "cash"
    allocation_percentage := 100
    expected_return := 0
    volatility := 0
    liquidity_level := LiquidityLevel.high }

/-- A one-asset portfolio configuration without rebalancing. -/
def exCashConfig : PortfolioConfiguration :=
  { asset_classes := [exCashAsset], enable_rebalancing := false }

/-- Profile with zero net worth and a zero safety buffer (claim C1's
zero-buffer edge case). -/
def exProfileZeroBuffer : UserProfile :=
  { birth_year := 1990
    expected_fire_age := 40
    legal_retirement_age := 60
    life_expectancy := 80
    current_net_worth := 0
    inflation_rate := 0
    safety_buffer_months := 0
    portfolio := exCashConfig }

/-- A single projection year in which the expense cannot be funded. -/
def exRowsDepleted : List SummaryRow :=
  [{ age := 36, year := 2026, total_income := 0, total_expense := 100 }]

/-- Profile with a 12-month safety buffer, FIRE at 38 of a 36-year-old,
used by the advisor claims. -/
def exProfileAdvisor : UserProfile :=
  { birth_year := 1990
    expected_fire_age := 38
    legal_retirement_age := 40
    life_expectancy := 40
    current_net_worth := 0
    inflation_rate := 0
    safety_buffer_months := 12
    portfolio := exCashConfig }

/-- The salary stream of the advisor scenario: 100 per year through the
expected FIRE age 38. -/
def exSalaryItem : IncomeExpenseItem :=
  { id := "salary-1"
    name := "salary"
    after_tax_amount_per_period := 100
    frequency := ItemFrequency.recurring
    start_age := 36
    end_age := some 38
    annual_growth_rate := 0
    is_income := true }

/-- The wide projection of the advisor scenario: salary 100 through age 38,
living expense 50 every year. -/
def exAdvisorDetailed : List WideRow :=
  [{ age := 36, year := 2026, cells := [("salary", 100), ("living", 50)] },
   { age := 37, year := 2027, cells := [("salary", 100), ("living", 50)] },
   { age := 38, year := 2028, cells := [("salary", 100), ("living", 50)] },
   { age := 39, year := 2029, cells := [("salary", 0), ("living", 50)] },
   { age := 40, year := 2030, cells := [("salary", 0), ("living", 50)] }]

/-- The matching annual summary of the advisor scenario. -/
def exAdvisorRows : List SummaryRow :=
  [{ age := 36, year := 2026, total_income := 100, total_expense := 50 },
   { age := 37, year := 2027, total_income := 100, total_expense := 50 },
   { age := 38, year := 2028, total_income := 100, total_expense := 50 },
   { age := 39, year := 2029, total_income := 0, total_expense := 50 },
   { age := 40, year := 2030, total_income := 0, total_expense := 50 }]

/-- The advisor-scenario engine input (claim C4's counterexample). -/
def exAdvisorInput : EngineInput :=
  { user_profile := exProfileAdvisor
    annual_financial_projection := exAdvisorRows
    detailed_projection := some exAdvisorDetailed
    income_items := some [exSalaryItem] }

/-- A one-time income item starting at age 0 (claim C2's counterexample). -/
def exOneTimeZero : IncomeExpenseItem :=
  { id := "x"
    name := "x"
    after_tax_amount_per_period := 100
    frequency := ItemFrequency.one_time
    start_age := 0
    end_age := none
    annual_growth_rate := 0
    is_income := true }

/-- A one-time expense item at age 45 (claim C2's witness). -/
def exHouseItem : IncomeExpenseItem :=
  { id := "house"
    name := "house"
    after_tax_amount_per_period := 200000
    frequency := ItemFrequency.one_time
    start_age := 45
    end_age := none
    annual_growth_rate := 0
    is_income := false }

/-- A recurring expense item with growth (claim C2's witness). -/
def exLivingItem : IncomeExpenseItem :=
  { id := "living"
    name := "living"
    after_tax_amount_per_period := 50000
    frequency := ItemFrequency.recurring
    start_age := 41
    end_age := some 85
    annual_growth_rate := 0
    is_income := false }

/-- Two depleted years in a row (claim C3's witness). -/
def exRowsTwoDepleted : List SummaryRow :=
  [{ age := 36, year := 2026, total_income := 0, total_expense := 100 },
   { age := 37, year := 2027, total_income := 0, total_expense := 40 }]

/-- Near-equal asset values (spec Scenario E, claim C5's witness). -/
def exC5Portfolio : PortfolioState :=
  { asset_values := [("a", 3333333/100), ("b", 3333333/100), ("c", 3333334/100)] }

/-- A HIGH-liquidity asset that is not named "cash" (claim C6). -/
def exMoneyAsset : AssetClass :=
  { name := "money"
    allocation_percentage := 25
    expected_return := 1
    volatility := 0
    liquidity_level := LiquidityLevel.high }

/-- A MEDIUM-liquidity investment asset (claim C6). -/
def exStocksAsset : AssetClass :=
  { name := "stocks"
    allocation_percentage := 75
    expected_return := 5
    volatility := 0
    liquidity_level := LiquidityLevel.medium }

/-- Configuration whose HIGH-liquidity asset is "money" (claim C6). -/
def exC6Config : PortfolioConfiguration :=
  { asset_classes := [exMoneyAsset, exStocksAsset], enable_rebalancing := false }

/-- A portfolio already holding a full buffer in "money" (claim C6). -/
def exC6Portfolio : PortfolioState :=
  { asset_values := [("money", 1000), ("stocks", 0)] }

/-- The target allocation of the C6 scenario. -/
def exC6Target : Dict := [("money", 1/4), ("stocks", 3/4)]

/-- The C4 truncated annual summary: the salary stream (which ends at the
expected FIRE age 38) zeroed beyond test age 37. -/
def exTruncRows : List SummaryRow :=
  [{ age := 36, year := 2026, total_income := 100, total_expense := 50 },
   { age := 37, year := 2027, total_income := 100, total_expense := 50 },
   { age := 38, year := 2028, total_income := 0, total_expense := 50 },
   { age := 39, year := 2029, total_income := 0, total_expense := 50 },
   { age := 40, year := 2030, total_income := 0, total_expense := 50 }]

/-- An unsustainable one-year plan whose profile leaves no room for delay
(claim C9's failing input). -/
def exC9Profile : UserProfile :=
  { birth_year := 1990
    expected_fire_age := 36
    legal_retirement_age := 36
    life_expectancy := 36
    current_net_worth := 0
    inflation_rate := 0
    safety_buffer_months := 12
    portfolio := exCashConfig }

/-- The salary stream of the C9 scenario. -/
def exC9SalaryItem : IncomeExpenseItem :=
  { id := "s"
    name := "salary"
    after_tax_amount_per_period := 60
    frequency := ItemFrequency.recurring
    start_age := 36
    end_age := some 36
    annual_growth_rate := 0
    is_income := true }

/-- The engine input of the C9 scenario. -/
def exC9Input : EngineInput :=
  { user_profile := exC9Profile
    annual_financial_projection :=
      [{ age := 36, year := 2026, total_income := 60, total_expense := 50 }]
    detailed_projection :=
      some [{ age := 36, year := 2026, cells := [("salary", 60), ("living", 50)] }]
    income_items := some [exC9SalaryItem] }

/-- A 60/40 rebalancing configuration (claim C10's witness). -/
def exC10Config : PortfolioConfiguration :=
  { asset_classes :=
      [{ name := "stocks"
         allocation_percentage := 60
         expected_return := 7
         volatility := 0
         liquidity_level := LiquidityLevel.medium },
       { name := "bonds"
         allocation_percentage := 40
         expected_return := 3
         volatility := 0
         liquidity_level := LiquidityLevel.low }]
    enable_rebalancing := true }

/-- A drifted 50/50 portfolio (claim C10's witness). -/
def exC10Portfolio : PortfolioState :=
  { asset_values := [("stocks", 50), ("bonds", 50)] }

/-!  ## Supporting lemmas on the dict model -/

theorem dictTotal_nil : dictTotal [] = 0 := rfl

theorem dictTotal_cons (p : String × ℚ) (l : Dict) :
    dictTotal (p :: l) = p.2 + dictTotal l := by
  simp [dictTotal]

theorem dictTotal_map_div (l : Dict) (t : ℚ) :
    dictTotal (l.map (fun p => (p.1, p.2 / t))) = dictTotal l / t := by
  induction l with
  | nil => simp [dictTotal]
  | cons p tl ih =>
    simp only [List.map_cons, dictTotal_cons, ih, add_div]

/-- Summing a dict built from a list of keys and values. -/
theorem dictTotal_map_pair {α : Type} (l : List α) (g : α → String) (f : α → ℚ) :
    dictTotal (l.map (fun a => (g a, f a))) = (l.map f).sum := by
  induction l with
  | nil => rfl
  | cons a tl ih => simp [dictTotal_cons, ih]

theorem dictGet_nil (k : String) : dictGet [] k = 0 := rfl

theorem dictGet_cons (p : String × ℚ) (l : Dict) (k : String) :
    dictGet (p :: l) k = if p.1 = k then p.2 else dictGet l k := by
  by_cases h : p.1 = k <;> simp [dictGet, List.find?, h]

theorem dictHasKey_cons (p : String × ℚ) (l : Dict) (k : String) :
    dictHasKey (p :: l) k = (decide (p.1 = k) || dictHasKey l k) := by
  simp [dictHasKey, List.any_cons]

theorem dictHasKey_nil (k : String) : dictHasKey [] k = false := rfl

/-- Looking up a key of a zero-initialized dict. -/
theorem dictGet_zero_init (ks : List String) (k : String) :
    dictGet (ks.map (fun k => (k, (0 : ℚ)))) k = 0 := by
  induction ks with
  | nil => rfl
  | cons a tl ih =>
    rw [List.map_cons, dictGet_cons]
    by_cases h : a = k <;> simp [h, ih]

theorem dictGet_of_not_hasKey (d : Dict) (k : String)
    (h : dictHasKey d k = false) : dictGet d k = 0 := by
  induction d with
  | nil => rfl
  | cons p tl ih =>
    rw [dictHasKey_cons] at h
    simp only [Bool.or_eq_false_iff, decide_eq_false_iff_not] at h
    rw [dictGet_cons, if_neg h.1]
    exact ih h.2

/-- A keyed in-place update is the identity when the key is absent. -/
theorem map_update_id (d : Dict) (k : String) (f : String × ℚ → String × ℚ)
    (h : dictHasKey d k = false) :
    d.map (fun p => if p.1 = k then f p else p) = d := by
  induction d with
  | nil => rfl
  | cons p tl ih =>
    rw [dictHasKey_cons] at h
    simp only [Bool.or_eq_false_iff, decide_eq_false_iff_not] at h
    rw [List.map_cons, if_neg h.1, ih h.2]

/-- Keyed updates preserve the first lookup of the updated key when the key
is present. -/
theorem dictGet_map_update_same (d : Dict) (k : String) (g : ℚ → ℚ)
    (h : dictHasKey d k = true) :
    dictGet (d.map (fun p => if p.1 = k then (p.1, g p.2) else p)) k
      = g (dictGet d k) := by
  induction d with
  | nil => exact Bool.noConfusion h
  | cons p tl ih =>
    by_cases hpk : p.1 = k
    · rw [List.map_cons, if_pos hpk]
      rw [dictGet_cons, dictGet_cons, if_pos hpk, if_pos hpk]
    · rw [dictHasKey_cons] at h
      simp only [Bool.or_eq_true, decide_eq_true_eq] at h
      have htl : dictHasKey tl k = true := by
        rcases h with h | h
        · exact absurd h hpk
        · exact h
      rw [List.map_cons, if_neg hpk, dictGet_cons, dictGet_cons,
        if_neg hpk, if_neg hpk]
      exact ih htl

/-- Keyed updates do not change lookups of other keys. -/
theorem dictGet_map_update_ne (d : Dict) (k : String) (g : ℚ → ℚ)
    (q : String) (hq : q ≠ k) :
    dictGet (d.map (fun p => if p.1 = k then (p.1, g p.2) else p)) q
      = dictGet d q := by
  induction d with
  | nil => rfl
  | cons p tl ih =>
    by_cases hpk : p.1 = k
    · rw [List.map_cons, if_pos hpk, dictGet_cons, dictGet_cons]
      have hpq : ¬ p.1 = q := fun hc => hq (hc ▸ hpk)
      rw [if_neg hpq, if_neg hpq]
      exact ih
    · rw [List.map_cons, if_neg hpk, dictGet_cons, dictGet_cons]
      by_cases hpq : p.1 = q
      · rw [if_pos hpq, if_pos hpq]
      · rw [if_neg hpq, if_neg hpq]
        exact ih

theorem dictGet_append_single (d : Dict) (k : String) (v : ℚ) (q : String) :
    dictGet (d ++ [(k, v)]) q =
      if dictHasKey d q then dictGet d q else if q = k then v else 0 := by
  induction d with
  | nil =>
    simp only [List.nil_append, dictGet_cons, dictGet_nil]
    by_cases h : q = k
    · simp [dictHasKey, h]
    · have : ¬ k = q := fun hc => h hc.symm
      simp [dictHasKey, this, h]
  | cons p tl ih =>
    by_cases hpq : p.1 = q
    · simp [List.cons_append, dictGet_cons, dictHasKey_cons, hpq]
    · simp [List.cons_append, dictGet_cons, dictHasKey_cons, hpq, ih]

/-- `dictGet` after `dictAdd` (unconditional). -/
theorem dictGet_dictAdd (d : Dict) (k : String) (v : ℚ) (q : String) :
    dictGet (dictAdd d k v) q
      = if q = k then dictGet d k + v else dictGet d q := by
  unfold dictAdd
  by_cases hk : dictHasKey d k
  · rw [if_pos hk]
    by_cases hq : q = k
    · subst hq
      rw [if_pos rfl]
      exact dictGet_map_update_same d q (fun x => x + v) hk
    · rw [if_neg hq]
      exact dictGet_map_update_ne d k (fun x => x + v) q hq
  · rw [if_neg hk, dictGet_append_single]
    by_cases hq : q = k
    · subst hq
      rw [if_neg (by simp [hk]), if_pos rfl, if_pos rfl,
        dictGet_of_not_hasKey d q (by simpa using hk), zero_add]
    · by_cases hdq : dictHasKey d q
      · rw [if_pos hdq, if_neg hq]
      · rw [if_neg (by simp [hdq]), if_neg hq, if_neg hq,
          dictGet_of_not_hasKey d q (by simpa using hdq)]

/-- `dictGet` after `dictSet` (unconditional). -/
theorem dictGet_dictSet (d : Dict) (k : String) (v : ℚ) (q : String) :
    dictGet (dictSet d k v) q = if q = k then v else dictGet d q := by
  unfold dictSet
  by_cases hk : dictHasKey d k
  · rw [if_pos hk]
    by_cases hq : q = k
    · subst hq
      rw [if_pos rfl]
      exact dictGet_map_update_same d q (fun _ => v) hk
    · rw [if_neg hq]
      exact dictGet_map_update_ne d k (fun _ => v) q hq
  · rw [if_neg hk, dictGet_append_single]
    by_cases hq : q = k
    · subst hq
      rw [if_neg (by simp [hk]), if_pos rfl, if_pos rfl]
    · by_cases hdq : dictHasKey d q
      · rw [if_pos hdq, if_neg hq]
      · rw [if_neg (by simp [hdq]), if_neg hq, if_neg hq,
          dictGet_of_not_hasKey d q (by simpa using hdq)]

/-!  ## Claim C5 -/

/-- C5: for every `PortfolioState` whose asset values have a non-zero total,
the values returned by `get_allocation()` sum to exactly 1 (in the exact
arithmetic of the model, which stands for the float arithmetic of the
source): the raw proportions `value / total` already sum to 1, so the
correction branches preserve the invariant. -/
theorem c5_get_allocation_sums_to_one (s : PortfolioState)
    (h : s.total_value ≠ 0) : dictTotal s.get_allocation = 1 := by
  have hraw :
      dictTotal (s.asset_values.map (fun p => (p.1, p.2 / s.total_value))) = 1 := by
    rw [dictTotal_map_div]
    exact div_self h
  unfold PortfolioState.get_allocation
  simp only [if_neg h, hraw]
  norm_num
  exact hraw

/-- Witness for C5 on the Scenario-E portfolio. -/
theorem c5_witness :
    exC5Portfolio.total_value ≠ 0 ∧ dictTotal exC5Portfolio.get_allocation = 1 :=
  ⟨by norm_num [exC5Portfolio, PortfolioState.total_value, dictTotal],
    c5_get_allocation_sums_to_one exC5Portfolio
      (by norm_num [exC5Portfolio, PortfolioState.total_value, dictTotal])⟩

/-!  ## Claim C7 -/

/-- C7: two runs of `MonteCarloSimulator.run_simulation`, each over a
simulator constructed with the same seed, the same settings, and the same
engine input, produce identical results — in particular identical
`success_rate`, identical final- and minimum-net-worth percentiles, and
identical per-event trigger counts — whatever the pre-existing states of the
global generators were, because both construction and `run_simulation`
re-seed them. -/
theorem c7_seeded_monte_carlo_determinism (profile : UserProfile)
    (currentYear : ℤ) (base_df : List SummaryRow)
    (settings : Option SimulationSettings) (seed : ℕ) (rng1 rng2 : ℕ) :
    run_simulation
        (mk_monte_carlo_simulator profile currentYear base_df settings
          (some seed) rng1)
      = run_simulation
        (mk_monte_carlo_simulator profile currentYear base_df settings
          (some seed) rng2) := rfl

/-!  ## Claim C8 -/

/-- C8: when the Monte Carlo step or the advisor step fails internally, the
planner still produces a `PlannerResults` carrying the FIRE calculation,
with the Monte Carlo success rate absent and the recommendations empty; the
assembly is total, so such internal failures never abort the calculation. -/
theorem c8_optional_subsystem_failures (fire_result : FIRECalculationResult)
    (e1 e2 : Unit) (monte_carlo_step : Except Unit MonteCarloResultM)
    (advisor_step : Except Unit (List AdvisorRecommendation)) :
    run_calculations fire_result (Except.error e1) (Except.error e2)
        = { fire_calculation := fire_result
            monte_carlo_success_rate := none
            recommendations := [] }
      ∧ (run_calculations fire_result monte_carlo_step advisor_step).fire_calculation
          = fire_result
      ∧ (run_calculations fire_result (Except.error e1) advisor_step).monte_carlo_success_rate
          = none
      ∧ (run_calculations fire_result monte_carlo_step (Except.error e2)).recommendations
          = [] :=
  ⟨rfl, rfl, rfl, rfl⟩

/-!  ## Claim C1 -/

/-- The aggregate achievability flag of the result record. -/
theorem create_result_is_fire_achievable (p : UserProfile) (cy : ℤ)
    (states : List YearlyState) :
    (create_calculation_result p cy states).is_fire_achievable
      = (if states.isEmpty then false
          else states.all (fun s => s.is_sustainable)) := rfl

/-- Every state the engine produces carries
`is_sustainable = (portfolio_value ≥ total_expense × safety_buffer_months / 12)`
(the flag is computed from the portfolio value, not from the final
`net_worth`). -/
theorem yearly_states_sustainable_flag (cfg : PortfolioConfiguration)
    (months : ℚ) (rows : List SummaryRow) :
    ∀ (pf : PortfolioState) (debt : ℚ),
    (calculate_yearly_states_go cfg months pf debt rows).all
      (fun s => s.is_sustainable
          == decide (s.portfolio_value ≥ s.total_expense * (months / 12))) = true := by
  induction rows with
  | nil => intro pf debt; rfl
  | cons r rs ih =>
    intro pf debt
    simp only [calculate_yearly_states_go, List.all_cons, Bool.and_eq_true]
    refine ⟨?_, ?_⟩
    · simp [calculate_single_year]
    · exact ih _ _

/-- C1 (amended): each year's `is_sustainable` equals
`portfolio_value ≥ total_expense × safety_buffer_months / 12` — which agrees
with the claimed `net_worth`-based comparison whenever the portfolio is
positive or the buffer is positive, but not in the zero-buffer depleted
case — and `is_fire_achievable` is the conjunction of `is_sustainable` over
a *nonempty* projection while the empty projection yields `false` rather
than a vacuous truth. -/
theorem c1_sustainability_flags (profile : UserProfile) (currentYear : ℤ)
    (rows : List SummaryRow) :
    ((engine_calculate profile currentYear rows).is_fire_achievable
        = (!(engine_calculate profile currentYear rows).yearly_results.isEmpty
            && (engine_calculate profile currentYear rows).yearly_results.all
                (fun s => s.is_sustainable)))
    ∧ (engine_calculate profile currentYear rows).yearly_results.all
        (fun s => s.is_sustainable
            == decide (s.portfolio_value
                ≥ s.total_expense * (profile.safety_buffer_months / 12))) = true := by
  constructor
  · rw [show (engine_calculate profile currentYear rows).is_fire_achievable
        = (if (calculate_yearly_states profile rows).isEmpty then false
            else (calculate_yearly_states profile rows).all
              (fun s => s.is_sustainable)) from rfl]
    cases h : (calculate_yearly_states profile rows).isEmpty <;>
      simp [engine_calculate, create_calculation_result, h]
  · exact yearly_states_sustainable_flag profile.portfolio
      profile.safety_buffer_months rows _ _

/-- Counterexample for C1 as stated: over the empty projection the code
reports `is_fire_achievable = false` while the conjunction over all years is
vacuously `true`; and in the depleted zero-buffer year the code reports
`is_sustainable = true` although `net_worth = -100` is far below the (zero)
safety buffer. -/
theorem c1_counterexample :
    ((engine_calculate exProfileZeroBuffer 2026 ([] : List SummaryRow)).is_fire_achievable
        ≠ (engine_calculate exProfileZeroBuffer 2026
            ([] : List SummaryRow)).yearly_results.all (fun s => s.is_sustainable))
    ∧ ((calculate_yearly_states exProfileZeroBuffer exRowsDepleted).map
        (fun s => (s.is_sustainable,
          decide (s.net_worth
            ≥ s.total_expense * (exProfileZeroBuffer.safety_buffer_months / 12)))))
        = [(true, false)] := by
  constructor
  · norm_num [engine_calculate, calculate_yearly_states,
      calculate_yearly_states_go, create_calculation_result]
  · norm_num [engine_calculate, calculate_yearly_states,
      calculate_yearly_states_go, calculate_single_year, simulate_year,
      initial_portfolio_from_profile, apply_returns, apply_cash_flows,
      maybe_rebalance, should_rebalance, get_target_allocation,
      calculate_returns_by_allocation, calculate_rebalancing_trades,
      execute_trades, handle_income, handle_expense, ensure_liquidity_buffer,
      allocate_proportionally, allocate_by_return_optimization,
      get_assets_by_liquidity_tier, withdraw_from_liquidity_tier,
      withdraw_by_return_optimization, withdraw_proportionally,
      PortfolioState.get_allocation, PortfolioState.total_value,
      firstMaxByValue, adjustLargest, floatEpsilon, dictGet, dictSet, dictAdd,
      dictTotal, dictKeys, dictHasKey, UserProfile.current_age,
      exProfileZeroBuffer, exRowsDepleted, exCashConfig, exCashAsset,
      List.find?, List.filter, List.foldl, List.any, List.all]

/-!  ## Claim C2 -/

/-- The Scenario-C profile: 3% inflation. -/
def exProfileScenC : UserProfile :=
  { exProfileAdvisor with inflation_rate := 3 }

/-- C2 (amended): per item and age, a one-time item whose `start_age` is
nonzero contributes `after_tax_amount_per_period` exactly in the row
`a = start_age` (no growth, no inflation); a recurring item with a nonzero
`end_age = e` contributes `amount × (1 + growth/100)^k` (income) resp.
`amount × (1 + inflation/100)^k × (1 + growth/100)^k` (expense) for
`start_age ≤ a ≤ e` with `k = a − start_age`, and 0 elsewhere.  The nonzero
provisos are forced by the Python `or 999` fallback, which turns an
effective end age of 0 into 999. -/
theorem c2_projection_cells (profile : UserProfile)
    (item : IncomeExpenseItem) (a : ℤ) :
    (item.frequency = ItemFrequency.one_time → item.start_age ≠ 0 →
      income_item_cell item a
          = (if a = item.start_age then item.after_tax_amount_per_period else 0)
        ∧ expense_item_cell profile item a
          = (if a = item.start_age then item.after_tax_amount_per_period else 0))
    ∧ (∀ e : ℤ, item.frequency = ItemFrequency.recurring →
        item.end_age = some e → e ≠ 0 →
      income_item_cell item a
          = (if item.start_age ≤ a ∧ a ≤ e then
              item.after_tax_amount_per_period *
                (1 + item.annual_growth_rate / 100) ^ (a - item.start_age).toNat
            else 0)
        ∧ expense_item_cell profile item a
          = (if item.start_age ≤ a ∧ a ≤ e then
              item.after_tax_amount_per_period *
                (1 + profile.inflation_rate / 100) ^ (a - item.start_age).toNat *
                (1 + item.annual_growth_rate / 100) ^ (a - item.start_age).toNat
            else 0)) := by
  constructor
  · intro hfreq hstart
    simp only [income_item_cell, expense_item_cell, get_effective_age_range,
      hfreq, pyOrInt, if_neg hstart]
    constructor
    · by_cases ha : a = item.start_age
      · subst ha
        simp
      · have hrange : ¬ (item.start_age ≤ a ∧ a ≤ item.start_age) := by omega
        simp [hrange, ha]
    · by_cases ha : a = item.start_age
      · subst ha
        simp
      · have hrange : ¬ (item.start_age ≤ a ∧ a ≤ item.start_age) := by omega
        simp [hrange, ha]
  · intro e hfreq hend he
    simp only [income_item_cell, expense_item_cell, get_effective_age_range,
      hfreq, hend, pyOrInt, if_neg he]
    exact ⟨trivial, trivial⟩

/-- Counterexample for C2 as stated: the one-time item starting at age 0 has
effective end age 0, which the `or 999` fallback turns into 999, so its cell
at age 1 is the full amount instead of the claimed 0. -/
theorem c2_counterexample :
    exOneTimeZero.frequency = ItemFrequency.one_time
    ∧ (1 : ℤ) ≠ exOneTimeZero.start_age
    ∧ income_item_cell exOneTimeZero 1 ≠ 0 := by
  refine ⟨rfl, by decide, ?_⟩
  norm_num [income_item_cell, get_effective_age_range, pyOrInt, exOneTimeZero]

/-- Witness for C2 on the Scenario-C items: the one-time house expense
appears exactly once, and the recurring living expense compounds inflation
over four years. -/
theorem c2_witness :
    (expense_item_cell exProfileScenC exHouseItem 45 = 200000
      ∧ expense_item_cell exProfileScenC exHouseItem 46 = 0)
    ∧ expense_item_cell exProfileScenC exLivingItem 45
        = 50000 * (1 + 3/100 : ℚ) ^ 4 := by
  have h1 := (c2_projection_cells exProfileScenC exHouseItem 45).1 rfl (by decide)
  have h2 := (c2_projection_cells exProfileScenC exHouseItem 46).1 rfl (by decide)
  have h3 := (c2_projection_cells exProfileScenC exLivingItem 45).2 85 rfl rfl
    (by decide)
  refine ⟨⟨?_, ?_⟩, ?_⟩
  · rw [h1.2]
    norm_num [exHouseItem]
  · rw [h2.2]
    norm_num [exHouseItem]
  · rw [h3.2]
    rw [show ((45 : ℤ) - exLivingItem.start_age).toNat = 4 from rfl]
    norm_num [exLivingItem, exProfileScenC, exProfileAdvisor]

/-!  ## Claim C3 -/

/-- Default used for out-of-range indexing in statements. -/
def dummyYearlyState : YearlyState :=
  { age := 0, year := 0, total_income := 0, total_expense := 0,
    net_cash_flow := 0, portfolio_value := 0, net_worth := 0,
    investment_return := 0, is_sustainable := false, fire_number := 0,
    fire_progress := 0 }

theorem calculate_single_year_net_worth (cfg : PortfolioConfiguration)
    (months : ℚ) (pf : PortfolioState) (row : SummaryRow) :
    (calculate_single_year cfg months pf row).2.net_worth
      = (calculate_single_year cfg months pf row).2.portfolio_value := rfl

theorem with_net_worth_portfolio_value (s : YearlyState) (x : ℚ) :
    ({ s with net_worth := x } : YearlyState).portfolio_value
      = s.portfolio_value := rfl

theorem with_net_worth_net_worth (s : YearlyState) (x : ℚ) :
    ({ s with net_worth := x } : YearlyState).net_worth = x := rfl

theorem with_net_worth_net_cash_flow (s : YearlyState) (x : ℚ) :
    ({ s with net_worth := x } : YearlyState).net_cash_flow
      = s.net_cash_flow := rfl

/-- Debt tracking of `_calculate_yearly_states`, generalized over the
incoming `cumulative_debt` accumulator. -/
theorem c3_go_spec (cfg : PortfolioConfiguration) (months : ℚ) :
    ∀ (rows : List SummaryRow) (pf : PortfolioState) (debt : ℚ),
    0 ≤ debt →
    ∀ i : ℕ, i < (calculate_yearly_states_go cfg months pf debt rows).length →
    ((0 < ((calculate_yearly_states_go cfg months pf debt rows).getD i
        dummyYearlyState).portfolio_value →
      ((calculate_yearly_states_go cfg months pf debt rows).getD i
          dummyYearlyState).net_worth
        = ((calculate_yearly_states_go cfg months pf debt rows).getD i
            dummyYearlyState).portfolio_value)
    ∧ (((calculate_yearly_states_go cfg months pf debt rows).getD i
          dummyYearlyState).portfolio_value ≤ 0 →
      ((calculate_yearly_states_go cfg months pf debt rows).getD i
          dummyYearlyState).net_worth ≤ 0
      ∧ ((calculate_yearly_states_go cfg months pf debt rows).getD i
          dummyYearlyState).net_worth
        = (if i = 0 then -debt
           else if 0 < ((calculate_yearly_states_go cfg months pf debt rows).getD
              (i - 1) dummyYearlyState).portfolio_value then 0
           else ((calculate_yearly_states_go cfg months pf debt rows).getD
              (i - 1) dummyYearlyState).net_worth)
          - (if ((calculate_yearly_states_go cfg months pf debt rows).getD i
              dummyYearlyState).net_cash_flow < 0 then
              |((calculate_yearly_states_go cfg months pf debt rows).getD i
                dummyYearlyState).net_cash_flow|
            else 0))) := by
  intro rows
  induction rows with
  | nil =>
    intro pf debt hd i hi
    simp [calculate_yearly_states_go] at hi
  | cons r rs ih =>
    intro pf debt hd i hi
    simp only [calculate_yearly_states_go] at hi ⊢
    by_cases hpv : (calculate_single_year cfg months pf r).2.portfolio_value > 0
    · simp only [if_pos hpv] at hi ⊢
      cases i with
      | zero =>
        simp only [List.getD_cons_zero]
        constructor
        · intro _
          exact calculate_single_year_net_worth cfg months pf r
        · intro hle
          exact absurd hpv (not_lt.mpr hle)
      | succ j =>
        simp only [List.getD_cons_succ, Nat.succ_sub_one, Nat.succ_ne_zero,
          if_false]
        rw [List.length_cons] at hi
        have hj := ih (calculate_single_year cfg months pf r).1 0 le_rfl j
          (Nat.lt_of_succ_lt_succ hi)
        refine ⟨hj.1, fun hle => ⟨(hj.2 hle).1, ?_⟩⟩
        rw [(hj.2 hle).2]
        cases j with
        | zero =>
          simp only [List.getD_cons_zero, if_pos rfl,
            with_net_worth_portfolio_value, with_net_worth_net_worth]
          rw [if_pos hpv, neg_zero]
          simp
        | succ k =>
          simp only [List.getD_cons_succ, Nat.succ_sub_one, Nat.succ_ne_zero,
            if_false]
    · simp only [if_neg hpv] at hi ⊢
      have hc : 0 ≤ (if (calculate_single_year cfg months pf r).2.net_cash_flow < 0
          then |(calculate_single_year cfg months pf r).2.net_cash_flow| else 0) := by
        split
        · exact abs_nonneg _
        · exact le_rfl
      cases i with
      | zero =>
        simp only [List.getD_cons_zero]
        constructor
        · intro hpos
          exact absurd hpos hpv
        · intro _
          constructor
          · simp only [neg_nonpos]
            exact add_nonneg hd hc
          · simp [sub_eq_add_neg, neg_add]
            ring
      | succ j =>
        simp only [List.getD_cons_succ, Nat.succ_sub_one, Nat.succ_ne_zero,
          if_false]
        rw [List.length_cons] at hi
        have hj := ih (calculate_single_year cfg months pf r).1
          (debt + (if (calculate_single_year cfg months pf r).2.net_cash_flow < 0
            then |(calculate_single_year cfg months pf r).2.net_cash_flow| else 0))
          (add_nonneg hd hc) j (Nat.lt_of_succ_lt_succ hi)
        refine ⟨hj.1, fun hle => ⟨(hj.2 hle).1, ?_⟩⟩
        rw [(hj.2 hle).2]
        cases j with
        | zero =>
          simp only [List.getD_cons_zero, if_pos rfl,
            with_net_worth_portfolio_value, with_net_worth_net_worth]
          rw [if_neg hpv]
          simp
        | succ k =>
          simp only [List.getD_cons_succ, Nat.succ_sub_one, Nat.succ_ne_zero,
            if_false]

/-- C3: in every run of the engine, a year with positive portfolio value has
`net_worth = portfolio_value` (and the running debt restarts), while a
depleted year has non-positive `net_worth` equal to the previous depleted
year's `net_worth` (0 after a positive year or at the start) minus
`|net_cash_flow|` when the cash flow is negative — i.e. the negated
cumulative sum of the shortfalls over the consecutive depleted years. -/
theorem c3_net_worth_debt_tracking (profile : UserProfile)
    (rows : List SummaryRow) (i : ℕ)
    (hi : i < (calculate_yearly_states profile rows).length) :
    (0 < ((calculate_yearly_states profile rows).getD i
        dummyYearlyState).portfolio_value →
      ((calculate_yearly_states profile rows).getD i
          dummyYearlyState).net_worth
        = ((calculate_yearly_states profile rows).getD i
            dummyYearlyState).portfolio_value)
    ∧ (((calculate_yearly_states profile rows).getD i
          dummyYearlyState).portfolio_value ≤ 0 →
      ((calculate_yearly_states profile rows).getD i
          dummyYearlyState).net_worth ≤ 0
      ∧ ((calculate_yearly_states profile rows).getD i
          dummyYearlyState).net_worth
        = (if i = 0 then 0
           else if 0 < ((calculate_yearly_states profile rows).getD (i - 1)
              dummyYearlyState).portfolio_value then 0
           else ((calculate_yearly_states profile rows).getD (i - 1)
              dummyYearlyState).net_worth)
          - (if ((calculate_yearly_states profile rows).getD i
              dummyYearlyState).net_cash_flow < 0 then
              |((calculate_yearly_states profile rows).getD i
                dummyYearlyState).net_cash_flow|
            else 0)) := by
  have h := c3_go_spec profile.portfolio profile.safety_buffer_months rows
    (initial_portfolio_from_profile profile) 0 le_rfl i hi
  simpa [calculate_yearly_states, neg_zero] using h

/-- Witness for C3 at the second consecutive depleted year of the
zero-net-worth scenario. -/
theorem c3_witness :
    (1 < (calculate_yearly_states exProfileZeroBuffer exRowsTwoDepleted).length)
    ∧ ((0 < ((calculate_yearly_states exProfileZeroBuffer exRowsTwoDepleted).getD 1
        dummyYearlyState).portfolio_value →
      ((calculate_yearly_states exProfileZeroBuffer exRowsTwoDepleted).getD 1
          dummyYearlyState).net_worth
        = ((calculate_yearly_states exProfileZeroBuffer exRowsTwoDepleted).getD 1
            dummyYearlyState).portfolio_value)
    ∧ (((calculate_yearly_states exProfileZeroBuffer exRowsTwoDepleted).getD 1
          dummyYearlyState).portfolio_value ≤ 0 →
      ((calculate_yearly_states exProfileZeroBuffer exRowsTwoDepleted).getD 1
          dummyYearlyState).net_worth ≤ 0
      ∧ ((calculate_yearly_states exProfileZeroBuffer exRowsTwoDepleted).getD 1
          dummyYearlyState).net_worth
        = (if (1 : ℕ) = 0 then 0
           else if 0 < ((calculate_yearly_states exProfileZeroBuffer
              exRowsTwoDepleted).getD 0 dummyYearlyState).portfolio_value then 0
           else ((calculate_yearly_states exProfileZeroBuffer
              exRowsTwoDepleted).getD 0 dummyYearlyState).net_worth)
          - (if ((calculate_yearly_states exProfileZeroBuffer
              exRowsTwoDepleted).getD 1 dummyYearlyState).net_cash_flow < 0 then
              |((calculate_yearly_states exProfileZeroBuffer
                exRowsTwoDepleted).getD 1 dummyYearlyState).net_cash_flow|
            else 0))) := by
  have hlen : (calculate_yearly_states exProfileZeroBuffer
      exRowsTwoDepleted).length = 2 := by
    simp only [calculate_yearly_states, calculate_yearly_states_go,
      List.length_cons, List.length_nil]
  refine ⟨by rw [hlen]; norm_num, ?_⟩
  exact c3_net_worth_debt_tracking exProfileZeroBuffer exRowsTwoDepleted 1
    (by rw [hlen]; norm_num)

/-!  ## Claim C10 -/

theorem list_sum_map_sub {α : Type} (l : List α) (f g : α → ℚ) :
    (l.map (fun a => f a - g a)).sum = (l.map f).sum - (l.map g).sum := by
  induction l with
  | nil => simp
  | cons a tl ih =>
    simp only [List.map_cons, List.sum_cons, ih]
    ring

theorem list_sum_map_mul_left {α : Type} (l : List α) (c : ℚ) (f : α → ℚ) :
    (l.map (fun a => c * f a)).sum = c * (l.map f).sum := by
  induction l with
  | nil => simp
  | cons a tl ih =>
    simp only [List.map_cons, List.sum_cons, ih]
    ring

theorem dictHasKey_iff_mem (d : Dict) (k : String) :
    dictHasKey d k = true ↔ k ∈ d.map Prod.fst := by
  simp [dictHasKey, List.any_eq_true, List.mem_map]

theorem map_fst_map_update (d : Dict) (k : String) (g : ℚ → ℚ) :
    (d.map (fun p => if p.1 = k then (p.1, g p.2) else p)).map Prod.fst
      = d.map Prod.fst := by
  induction d with
  | nil => rfl
  | cons p tl ih =>
    by_cases hpk : p.1 = k <;> simp [hpk, ih]

theorem dictTotal_map_add (d : Dict) (k : String) (v : ℚ)
    (hnd : (d.map Prod.fst).Nodup) (hk : dictHasKey d k = true) :
    dictTotal (d.map (fun p => if p.1 = k then (p.1, p.2 + v) else p))
      = dictTotal d + v := by
  induction d with
  | nil => exact Bool.noConfusion hk
  | cons p tl ih =>
    simp only [List.map_cons, List.nodup_cons] at hnd
    by_cases hpk : p.1 = k
    · have htl : dictHasKey tl k = false := by
        rcases h : dictHasKey tl k with _ | _
        · rfl
        · exact absurd (hpk ▸ (dictHasKey_iff_mem tl k).mp h) hnd.1
      rw [List.map_cons, if_pos hpk,
        map_update_id tl k (fun p => (p.1, p.2 + v)) htl,
        dictTotal_cons, dictTotal_cons]
      ring
    · have hk' : dictHasKey tl k = true := by
        rw [dictHasKey_cons] at hk
        rcases Bool.or_eq_true_iff.mp hk with h | h
        · exact absurd (of_decide_eq_true h) hpk
        · exact h
      rw [List.map_cons, if_neg hpk, dictTotal_cons, dictTotal_cons,
        ih hnd.2 hk']
      ring

theorem dictTotal_dictAdd (d : Dict) (k : String) (v : ℚ)
    (hnd : (d.map Prod.fst).Nodup) (hk : dictHasKey d k = true) :
    dictTotal (dictAdd d k v) = dictTotal d + v := by
  unfold dictAdd
  rw [if_pos hk]
  exact dictTotal_map_add d k v hnd hk

theorem map_fst_dictAdd (d : Dict) (k : String) (v : ℚ)
    (hk : dictHasKey d k = true) :
    (dictAdd d k v).map Prod.fst = d.map Prod.fst := by
  unfold dictAdd
  rw [if_pos hk]
  exact map_fst_map_update d k (fun x => x + v)

theorem map_keys_dictGet (d : Dict) (hnd : (d.map Prod.fst).Nodup) :
    (d.map Prod.fst).map (fun k => dictGet d k) = d.map Prod.snd := by
  induction d with
  | nil => rfl
  | cons p tl ih =>
    simp only [List.map_cons, List.nodup_cons] at hnd ⊢
    have hhead : dictGet (p :: tl) p.1 = p.2 := by
      rw [dictGet_cons, if_pos rfl]
    have hcongr : (tl.map Prod.fst).map (fun k => dictGet (p :: tl) k)
        = (tl.map Prod.fst).map (fun k => dictGet tl k) := by
      apply List.map_congr_left
      intro k hkmem
      have hne : p.1 ≠ k := fun hc => hnd.1 (hc ▸ hkmem)
      rw [dictGet_cons, if_neg hne]
    rw [hhead, hcongr, ih hnd.2]

/-- The `_execute_trades` fold adds the total of the trades to the total of
the portfolio and keeps the key list unchanged, provided every trade key is
already an asset of the portfolio. -/
theorem execute_trades_foldl (trades : Dict) :
    ∀ (acc : Dict), (acc.map Prod.fst).Nodup →
    (∀ p ∈ trades, dictHasKey acc p.1 = true) →
    dictTotal (trades.foldl
        (fun a p =>
          if dictHasKey a p.1 then dictAdd a p.1 p.2 else a ++ [(p.1, max 0 p.2)])
        acc)
      = dictTotal acc + dictTotal trades := by
  induction trades with
  | nil =>
    intro acc _ _
    simp [dictTotal]
  | cons t ts ih =>
    intro acc hnd hkeys
    have hk := hkeys t (List.mem_cons_self t ts)
    rw [List.foldl_cons, if_pos hk]
    have hkeys' : ∀ p ∈ ts, dictHasKey (dictAdd acc t.1 t.2) p.1 = true := by
      intro p hp
      rw [dictHasKey_iff_mem, map_fst_dictAdd acc t.1 t.2 hk,
        ← dictHasKey_iff_mem]
      exact hkeys p (List.mem_cons_of_mem t hp)
    have hnd' : ((dictAdd acc t.1 t.2).map Prod.fst).Nodup := by
      rw [map_fst_dictAdd acc t.1 t.2 hk]
      exact hnd
    rw [ih (dictAdd acc t.1 t.2) hnd' hkeys',
      dictTotal_dictAdd acc t.1 t.2 hnd hk, dictTotal_cons]
    ring

/-- C10: for a portfolio with positive total value whose assets are exactly
the configured asset classes (distinct names) and a target allocation whose
weights sum to 1 over those assets, the rebalancing trades sum to zero and
executing them leaves the portfolio total unchanged — rebalancing only
redistributes value. -/
theorem c10_rebalancing_preserves_total (cfg : PortfolioConfiguration)
    (pf : PortfolioState) (target_allocation : Dict)
    (hpos : 0 < pf.total_value)
    (halign : pf.asset_values.map Prod.fst
        = cfg.asset_classes.map (fun a => a.name))
    (hnd : (pf.asset_values.map Prod.fst).Nodup)
    (hsum : (cfg.asset_classes.map
        (fun a => dictGet target_allocation a.name)).sum = 1) :
    dictTotal (calculate_rebalancing_trades cfg pf target_allocation) = 0
    ∧ (execute_trades pf
        (calculate_rebalancing_trades cfg pf target_allocation)).total_value
      = pf.total_value := by
  have hlookups : (cfg.asset_classes.map
      (fun a => dictGet pf.asset_values a.name)).sum = pf.total_value := by
    have h1 : cfg.asset_classes.map (fun a => dictGet pf.asset_values a.name)
        = (cfg.asset_classes.map (fun a => a.name)).map
            (fun k => dictGet pf.asset_values k) := by
      rw [List.map_map]
      rfl
    rw [h1, ← halign, map_keys_dictGet pf.asset_values hnd]
    rfl
  have htr : dictTotal (calculate_rebalancing_trades cfg pf target_allocation)
      = 0 := by
    unfold calculate_rebalancing_trades
    rw [if_neg (not_le.mpr hpos), dictTotal_map_pair]
    rw [list_sum_map_sub cfg.asset_classes
      (fun a => pf.total_value * dictGet target_allocation a.name)
      (fun a => dictGet pf.asset_values a.name)]
    rw [list_sum_map_mul_left cfg.asset_classes pf.total_value
      (fun a => dictGet target_allocation a.name)]
    rw [hsum, hlookups]
    ring
  refine ⟨htr, ?_⟩
  have hkeys : ∀ p ∈ calculate_rebalancing_trades cfg pf target_allocation,
      dictHasKey pf.asset_values p.1 = true := by
    intro p hp
    unfold calculate_rebalancing_trades at hp
    rw [if_neg (not_le.mpr hpos)] at hp
    obtain ⟨a, ha, hpa⟩ := List.mem_map.mp hp
    rw [dictHasKey_iff_mem, halign]
    exact List.mem_map.mpr ⟨a, ha, by rw [← hpa]⟩
  show dictTotal _ = _
  unfold execute_trades
  rw [execute_trades_foldl (calculate_rebalancing_trades cfg pf target_allocation)
    pf.asset_values hnd hkeys, htr]
  show dictTotal pf.asset_values + 0 = pf.total_value
  rw [add_zero]
  rfl

/-- Witness for C10 on the drifted 60/40 portfolio. -/
theorem c10_witness :
    (0 < exC10Portfolio.total_value
      ∧ (exC10Config.asset_classes.map
          (fun a => dictGet (get_target_allocation exC10Config) a.name)).sum = 1)
    ∧ (dictTotal (calculate_rebalancing_trades exC10Config exC10Portfolio
          (get_target_allocation exC10Config)) = 0
      ∧ (execute_trades exC10Portfolio
          (calculate_rebalancing_trades exC10Config exC10Portfolio
            (get_target_allocation exC10Config))).total_value
        = exC10Portfolio.total_value) := by
  refine ⟨⟨?_, ?_⟩, ?_⟩
  · norm_num [exC10Portfolio, PortfolioState.total_value, dictTotal]
  · simp [exC10Config, get_target_allocation, dictGet, List.find?]
    norm_num
  · exact c10_rebalancing_preserves_total exC10Config exC10Portfolio
      (get_target_allocation exC10Config)
      (by norm_num [exC10Portfolio, PortfolioState.total_value, dictTotal])
      (by simp [exC10Portfolio, exC10Config])
      (by simp [exC10Portfolio])
      (by simp [exC10Config, get_target_allocation, dictGet, List.find?]
          norm_num)

/-!  ## Claim C6 -/

/-- Lookup after the investment fold of
`_allocate_by_return_optimization`: the initial value plus the contributions
of the entries carrying that key. -/
theorem invest_fold_get (assets : List AssetClass) (target : Dict)
    (rem w : ℚ) :
    ∀ (d : Dict) (k : String),
    dictGet (assets.foldl
        (fun acc a =>
          if dictGet target a.name > 0 then
            dictAdd acc a.name (rem * (dictGet target a.name / w))
          else acc)
        d) k
      = dictGet d k
        + ((assets.filter (fun a => decide (dictGet target a.name > 0)
              && decide (a.name = k))).map
            (fun a => rem * (dictGet target a.name / w))).sum := by
  induction assets with
  | nil =>
    intro d k
    simp
  | cons a tl ih =>
    intro d k
    by_cases hc : dictGet target a.name > 0
    · rw [List.foldl_cons, if_pos hc, ih, dictGet_dictAdd]
      by_cases hk : k = a.name
      · subst hk
        rw [if_pos rfl, List.filter_cons_of_pos (by simp [hc])]
        rw [List.map_cons, List.sum_cons, add_assoc]
      · rw [List.filter_cons_of_neg
          (by simp [show ¬ a.name = k from fun h2 => hk h2.symm])]
        rw [if_neg hk]
    · rw [List.foldl_cons, if_neg hc, ih]
      rw [List.filter_cons_of_neg (by simp [hc])]

/-- In a list of assets with pairwise distinct names, filtering for a member
satisfying the predicate by its own name yields exactly that member. -/
theorem filter_by_name_singleton (assets : List AssetClass) (a : AssetClass)
    (P : AssetClass → Bool) (hmem : a ∈ assets) (hP : P a = true)
    (hnd : (assets.map (fun b => b.name)).Nodup) :
    assets.filter (fun b => P b && decide (b.name = a.name)) = [a] := by
  induction assets with
  | nil => cases hmem
  | cons b tl ih =>
    simp only [List.map_cons, List.nodup_cons] at hnd
    rcases List.mem_cons.mp hmem with rfl | hmem2
    · have hfil : tl.filter (fun c => P c && decide (c.name = a.name)) = [] := by
        apply List.filter_eq_nil_iff.mpr
        intro c hc
        have hne : c.name ≠ a.name := by
          intro hcontra
          exact hnd.1 (hcontra ▸ List.mem_map.mpr ⟨c, hc, rfl⟩)
        simp [hne]
      rw [List.filter_cons, if_pos (by simp [hP]), hfil]
    · have hbname : b.name ≠ a.name := by
        intro hcontra
        exact hnd.1 (hcontra ▸ List.mem_map.mpr ⟨a, hmem2, rfl⟩)
      rw [List.filter_cons, if_neg (by simp [hbname])]
      exact ih hmem2 hnd.2

/-- The renormalization denominator of claim C6: the total target weight of
the non-HIGH assets with positive target weight. -/
def non_high_weight_total (cfg : PortfolioConfiguration) (target : Dict) : ℚ :=
  ((cfg.asset_classes.filter
      (fun a => a.liquidity_level ≠ LiquidityLevel.high
        ∧ dictGet target a.name > 0)).map
    (fun a => dictGet target a.name)).sum

/-- The buffer deposit the code actually makes: keyed on the literal name
`"cash"`. -/
def cash_buffer_deposit (cash_buffer_months income annual_expenses : ℚ)
    (pf : PortfolioState) : ℚ :=
  min income
    (max 0 (annual_expenses * (cash_buffer_months / 12)
      - dictGet pf.asset_values "cash"))

/-- With a configuration and a positive non-HIGH weight total,
`_allocate_by_return_optimization` adds to each key the remaining income
times the renormalized target weight of the non-HIGH positive-target assets
carrying that key. -/
theorem allocate_opt_get (cfg : PortfolioConfiguration) (target : Dict)
    (rem : ℚ) (d : Dict) (k : String)
    (hw : 0 < non_high_weight_total cfg target) :
    dictGet (allocate_by_return_optimization rem target d (some cfg)) k
      = dictGet d k
        + (((cfg.asset_classes.filter
              (fun b => decide (b.liquidity_level ≠ LiquidityLevel.high
                ∧ dictGet target b.name > 0))).filter
              (fun b => decide (b.name = k))).map
            (fun b => rem * (dictGet target b.name
              / non_high_weight_total cfg target))).sum := by
  have hperm : ((cfg.asset_classes.filter
        (fun b => decide (b.liquidity_level ≠ LiquidityLevel.high
          ∧ dictGet target b.name > 0))).mergeSort
      (fun a b => b.expected_return ≤ a.expected_return)).Perm
      (cfg.asset_classes.filter
        (fun b => decide (b.liquidity_level ≠ LiquidityLevel.high
          ∧ dictGet target b.name > 0))) :=
    List.mergeSort_perm _ _
  have hsum : (((cfg.asset_classes.filter
        (fun b => decide (b.liquidity_level ≠ LiquidityLevel.high
          ∧ dictGet target b.name > 0))).mergeSort
      (fun a b => b.expected_return ≤ a.expected_return)).map
        (fun b => dictGet target b.name)).sum
      = non_high_weight_total cfg target := (hperm.map _).sum_eq
  simp only [allocate_by_return_optimization]
  rw [hsum, if_pos hw, invest_fold_get]
  congr 1
  have hfil : (cfg.asset_classes.filter
        (fun b => decide (b.liquidity_level ≠ LiquidityLevel.high
          ∧ dictGet target b.name > 0))).filter
      (fun b => decide (dictGet target b.name > 0) && decide (b.name = k))
      = (cfg.asset_classes.filter
          (fun b => decide (b.liquidity_level ≠ LiquidityLevel.high
            ∧ dictGet target b.name > 0))).filter
        (fun b => decide (b.name = k)) := by
    apply List.filter_congr
    intro b hb
    have hbQ := (List.mem_filter.mp hb).2
    rw [decide_eq_true_eq] at hbQ
    simp [hbQ.2]
  exact ((hperm.filter _).map _).sum_eq.trans (by rw [hfil])

/-- **C6 (amended).**  `handle_income` computes
`required_buffer = annual_expense * cash_buffer_months / 12`, but both the
current-buffer reading and the deposit are keyed on the literal asset name
`"cash"`, not on the first HIGH-liquidity asset of the configuration: the
deposit `min(income, max(0, required_buffer - asset_values["cash"]))` lands
under the key `"cash"` even when no configured asset bears that name, and
the remaining income is spread over the non-HIGH assets with positive
target weight in proportion to their renormalized target weights. -/
theorem c6_income_buffer_and_split
    (cash_buffer_months income annual_expenses : ℚ)
    (cfg : PortfolioConfiguration) (pf : PortfolioState) (target : Dict)
    (a : AssetClass)
    (hinc : 0 ≤ income)
    (hrem : 0 < income
      - cash_buffer_deposit cash_buffer_months income annual_expenses pf)
    (hw : 0 < non_high_weight_total cfg target)
    (hnd : (cfg.asset_classes.map (fun b => b.name)).Nodup)
    (hcash : ∀ b ∈ cfg.asset_classes, b.name = "cash"
      → b.liquidity_level = LiquidityLevel.high)
    (hmem : a ∈ cfg.asset_classes)
    (hhigh : a.liquidity_level ≠ LiquidityLevel.high)
    (htgt : 0 < dictGet target a.name) :
    dictGet (handle_income cash_buffer_months (some cfg) income pf
        annual_expenses target) "cash"
      = cash_buffer_deposit cash_buffer_months income annual_expenses pf
    ∧ dictGet (handle_income cash_buffer_months (some cfg) income pf
        annual_expenses target) a.name
      = (income - cash_buffer_deposit cash_buffer_months income
            annual_expenses pf)
          * (dictGet target a.name / non_high_weight_total cfg target) := by
  have hane : a.name ≠ "cash" := fun h => hhigh (hcash a hmem h)
  set dep := cash_buffer_deposit cash_buffer_months income annual_expenses pf
    with hdep
  have hstep : ensure_liquidity_buffer cash_buffer_months income pf
      annual_expenses ((dictKeys target).map (fun k => (k, (0 : ℚ))))
      = (dictSet ((dictKeys target).map (fun k => (k, (0 : ℚ)))) "cash" dep,
          dep)
      ∨ (ensure_liquidity_buffer cash_buffer_months income pf
          annual_expenses ((dictKeys target).map (fun k => (k, (0 : ℚ))))
          = (((dictKeys target).map (fun k => (k, (0 : ℚ)))), dep)
        ∧ dep = 0) := by
    by_cases hsf : max 0 (annual_expenses * (cash_buffer_months / 12)
        - dictGet pf.asset_values "cash") > 0
    · left
      simp only [ensure_liquidity_buffer]
      rw [if_pos hsf, hdep]
      simp only [cash_buffer_deposit]
    · have h0 : max 0 (annual_expenses * (cash_buffer_months / 12)
          - dictGet pf.asset_values "cash") = 0 :=
        le_antisymm (not_lt.mp hsf) (le_max_left 0 _)
      have hdep0 : dep = 0 := by
        rw [hdep]
        simp only [cash_buffer_deposit]
        rw [h0]
        exact min_eq_right hinc
      right
      refine ⟨?_, hdep0⟩
      simp only [ensure_liquidity_buffer]
      rw [if_neg hsf, hdep0]
  obtain ⟨hE2, hE1cash, hE1a⟩ :
      (ensure_liquidity_buffer cash_buffer_months income pf annual_expenses
        ((dictKeys target).map (fun k => (k, (0 : ℚ))))).2 = dep
      ∧ dictGet (ensure_liquidity_buffer cash_buffer_months income pf
          annual_expenses ((dictKeys target).map (fun k => (k, (0 : ℚ))))).1
          "cash" = dep
      ∧ dictGet (ensure_liquidity_buffer cash_buffer_months income pf
          annual_expenses ((dictKeys target).map (fun k => (k, (0 : ℚ))))).1
          a.name = 0 := by
    rcases hstep with h | ⟨h, hdep0⟩
    · rw [h]
      refine ⟨rfl, ?_, ?_⟩
      · rw [dictGet_dictSet, if_pos rfl]
      · rw [dictGet_dictSet, if_neg hane]
        exact dictGet_zero_init (dictKeys target) a.name
    · rw [h]
      refine ⟨rfl, ?_, ?_⟩
      · rw [hdep0]
        exact dictGet_zero_init (dictKeys target) "cash"
      · exact dictGet_zero_init (dictKeys target) a.name
  have hHI : handle_income cash_buffer_months (some cfg) income pf
      annual_expenses target
      = allocate_by_return_optimization (income - dep) target
          (ensure_liquidity_buffer cash_buffer_months income pf
            annual_expenses
            ((dictKeys target).map (fun k => (k, (0 : ℚ))))).1 (some cfg) := by
    simp only [handle_income]
    rw [hE2, if_pos hrem]
  constructor
  · rw [hHI, allocate_opt_get cfg target (income - dep) _ "cash" hw, hE1cash]
    have hnil : (cfg.asset_classes.filter
          (fun b => decide (b.liquidity_level ≠ LiquidityLevel.high
            ∧ dictGet target b.name > 0))).filter
        (fun b => decide (b.name = "cash")) = [] := by
      apply List.filter_eq_nil_iff.mpr
      intro b hb
      have hbQ := (List.mem_filter.mp hb).2
      rw [decide_eq_true_eq] at hbQ
      have hne : b.name ≠ "cash" := fun h =>
        hbQ.1 (hcash b (List.mem_filter.mp hb).1 h)
      simp [hne]
    rw [hnil]
    simp
  · rw [hHI, allocate_opt_get cfg target (income - dep) _ a.name hw, hE1a]
    have hmemL : a ∈ cfg.asset_classes.filter
        (fun b => decide (b.liquidity_level ≠ LiquidityLevel.high
          ∧ dictGet target b.name > 0)) :=
      List.mem_filter.mpr ⟨hmem, by
        rw [decide_eq_true_eq]
        exact ⟨hhigh, htgt⟩⟩
    have hndL : ((cfg.asset_classes.filter
          (fun b => decide (b.liquidity_level ≠ LiquidityLevel.high
            ∧ dictGet target b.name > 0))).map (fun b => b.name)).Nodup :=
      hnd.sublist ((List.filter_sublist _).map (fun b : AssetClass => b.name))
    have hsingle : (cfg.asset_classes.filter
          (fun b => decide (b.liquidity_level ≠ LiquidityLevel.high
            ∧ dictGet target b.name > 0))).filter
        (fun b => decide (b.name = a.name)) = [a] := by
      have h1 := filter_by_name_singleton
        (cfg.asset_classes.filter
          (fun b => decide (b.liquidity_level ≠ LiquidityLevel.high
            ∧ dictGet target b.name > 0)))
        a (fun _ => true) hmemL rfl hndL
      simpa using h1
    rw [hsingle]
    simp

/-- Counterexample to C6 as stated: with the HIGH-liquidity asset named
`"money"` (so that no configured asset is named `"cash"`), a portfolio of
1000 in `"money"`, annual expenses 1200 and a 3-month buffer, the claimed
behaviour deposits nothing (the HIGH assets already exceed the required
buffer of 300) and routes the full income of 100 to `"stocks"`; the code
instead reads a zero buffer under the literal key `"cash"`, deposits the
whole 100 under `"cash"` — a key outside the configuration — and gives
`"stocks"` nothing. -/
theorem c6_counterexample :
    dictGet (handle_income 3 (some exC6Config) 100 exC6Portfolio 1200
        exC6Target) "stocks" = 0
    ∧ dictGet (handle_income 3 (some exC6Config) 100 exC6Portfolio 1200
        exC6Target) "cash" = 100
    ∧ dictGet (spec_handle_income 3 exC6Config 100 exC6Portfolio 1200
        exC6Target) "stocks" = 100 := by
  refine ⟨?_, ?_, ?_⟩
  · simp [handle_income, ensure_liquidity_buffer,
      allocate_by_return_optimization, exC6Config, exC6Portfolio, exC6Target,
      exMoneyAsset, exStocksAsset, dictGet, dictSet, dictAdd, dictHasKey,
      dictKeys, List.find?, min_def, max_def]
    norm_num
    rfl
  · simp [handle_income, ensure_liquidity_buffer,
      allocate_by_return_optimization, exC6Config, exC6Portfolio, exC6Target,
      exMoneyAsset, exStocksAsset, dictGet, dictSet, dictAdd, dictHasKey,
      dictKeys, List.find?, min_def, max_def]
    norm_num
    rfl
  · simp [spec_handle_income, exC6Config, exC6Portfolio, exC6Target,
      exMoneyAsset, exStocksAsset, dictGet, dictSet, dictAdd, dictHasKey,
      dictKeys, List.find?, min_def, max_def]
    norm_num
    rfl

/-- Witness for the amended C6 on the cash-less 60/40 configuration: with no
buffer shortfall the deposit under `"cash"` is 0 and `"stocks"` receives the
full income times its renormalized target weight. -/
theorem c6_witness :
    (0 < (100 : ℚ) - cash_buffer_deposit 3 100 0 exC10Portfolio
      ∧ 0 < non_high_weight_total exC10Config
          (get_target_allocation exC10Config))
    ∧ (dictGet (handle_income 3 (some exC10Config) 100 exC10Portfolio 0
          (get_target_allocation exC10Config)) "cash"
        = cash_buffer_deposit 3 100 0 exC10Portfolio
      ∧ dictGet (handle_income 3 (some exC10Config) 100 exC10Portfolio 0
          (get_target_allocation exC10Config))
          ({ name := "stocks", allocation_percentage := 60,
             expected_return := 7, volatility := 0,
             liquidity_level := LiquidityLevel.medium } : AssetClass).name
        = (100 - cash_buffer_deposit 3 100 0 exC10Portfolio)
          * (dictGet (get_target_allocation exC10Config)
              ({ name := "stocks", allocation_percentage := 60,
                 expected_return := 7, volatility := 0,
                 liquidity_level := LiquidityLevel.medium } : AssetClass).name
            / non_high_weight_total exC10Config
                (get_target_allocation exC10Config))) := by
  refine ⟨⟨?_, ?_⟩, ?_⟩
  · simp [cash_buffer_deposit, exC10Portfolio, dictGet, List.find?,
      min_def, max_def]
  · simp [non_high_weight_total, exC10Config, get_target_allocation,
      dictGet, List.find?]
    norm_num
  · exact c6_income_buffer_and_split 3 100 0 exC10Config exC10Portfolio
      (get_target_allocation exC10Config)
      ({ name := "stocks", allocation_percentage := 60,
         expected_return := 7, volatility := 0,
         liquidity_level := LiquidityLevel.medium } : AssetClass)
      (by norm_num)
      (by simp [cash_buffer_deposit, exC10Portfolio, dictGet, List.find?,
            min_def, max_def])
      (by simp [non_high_weight_total, exC10Config, get_target_allocation,
            dictGet, List.find?]
          norm_num)
      (by simp [exC10Config])
      (by intro b hb hname
          simp [exC10Config] at hb
          rcases hb with rfl | rfl <;> simp at hname)
      (List.mem_cons_self _ _)
      (by decide)
      (by simp [exC10Config, get_target_allocation, dictGet, List.find?])

/-!  ## Claim C4 -/

/-- `is_fire_achievable` does not depend on `expected_fire_age`: the yearly
states read the profile only through its buffer, net worth and portfolio,
and the achievability flag is their conjunction. -/
theorem engine_achievable_fire_age_invariant (p : UserProfile)
    (t currentYear : ℤ) (rows : List SummaryRow) :
    (engine_calculate { p with expected_fire_age := t } currentYear
        rows).is_fire_achievable
      = (engine_calculate p currentYear rows).is_fire_achievable := rfl

/-- When the base plan is achievable, the advisor's earliest-retirement walk
(which re-runs the engine over the *unchanged* projection) keeps succeeding
all the way down and returns `current_age`. -/
theorem earliest_loop_reaches_current (input : EngineInput)
    (currentYear : ℤ) (cur : ℤ)
    (hbase : (engine_calculate input.user_profile currentYear
        input.annual_financial_projection).is_fire_achievable = true) :
    ∀ (n : ℕ) (test e : ℤ), cur ≤ test → (test + 1 - cur).toNat = n →
      earliest_retirement_loop input currentYear cur test e = cur := by
  intro n
  induction n with
  | zero =>
    intro test e hle hn
    exfalso
    omega
  | succ m ih =>
    intro test e hle hn
    have hres : (engine_calculate
        { input.user_profile with expected_fire_age := test } currentYear
        input.annual_financial_projection).is_fire_achievable = true := by
      rw [engine_achievable_fire_age_invariant]
      exact hbase
    rw [earliest_retirement_loop.eq_def, dif_pos hle]
    simp only [hres, if_true]
    by_cases h2 : cur ≤ test - 1
    · exact ih (test - 1) test h2 (by omega)
    · rw [earliest_retirement_loop.eq_def, dif_neg h2]
      omega

/-- **C4 (amended).**  The earliest-retirement walk does step `test_age`
downward from `expected_fire_age - 1` toward `current_age`, but it never
perturbs the projection: each candidate re-runs the engine over the
unchanged annual projection with only the profile's `expected_fire_age`
replaced, a field the achievability flag does not depend on.  Hence when
the base plan is sustainable and the current age is below the expected FIRE
age, the walk always reaches `current_age` and the advisor reports the
current age itself as the earliest retirement age. -/
theorem c4_earliest_search_no_truncation (input : EngineInput)
    (currentYear : ℤ)
    (hbase : (engine_calculate input.user_profile currentYear
        input.annual_financial_projection).is_fire_achievable = true)
    (hage : input.user_profile.current_age currentYear
      < input.user_profile.expected_fire_age) :
    find_earliest_retirement_age input currentYear
      = some (input.user_profile.current_age currentYear) := by
  have hloop := earliest_loop_reaches_current input currentYear
    (input.user_profile.current_age currentYear) hbase
    (input.user_profile.expected_fire_age - 1 + 1
      - input.user_profile.current_age currentYear).toNat
    (input.user_profile.expected_fire_age - 1)
    input.user_profile.expected_fire_age (by omega) rfl
  simp only [find_earliest_retirement_age]
  rw [hloop, if_pos hage]

/-- Symbolic evaluation of one engine year on the all-cash configuration:
returns are zero, the flow lands entirely on (or is withdrawn entirely
from) the single `"cash"` asset, and the ending value is floored at 0. -/
theorem single_year_cash (m v i c : ℚ) (A Y : ℤ) (hv : 0 ≤ v) :
    calculate_single_year exCashConfig m { asset_values := [("cash", v)] }
      { age := A, year := Y, total_income := i, total_expense := c }
    = ({ asset_values := [("cash", max 0 (v + (i - c)))] },
       { age := A, year := Y, total_income := i, total_expense := c,
         net_cash_flow := i - c,
         portfolio_value := max 0 (v + (i - c)),
         net_worth := max 0 (v + (i - c)),
         investment_return := 0,
         is_sustainable := decide (max 0 (v + (i - c)) ≥ c * (m / 12)),
         fire_number := c * 25,
         fire_progress := if c * 25 > 0 then max 0 (v + (i - c)) / (c * 25)
           else 0 }) := by
  by_cases hnet : i - c = 0
  · simp [calculate_single_year, simulate_year, apply_returns,
      apply_cash_flows, maybe_rebalance, should_rebalance,
      get_target_allocation, calculate_returns_by_allocation,
      handle_income, handle_expense, ensure_liquidity_buffer,
      allocate_proportionally, allocate_by_return_optimization,
      get_assets_by_liquidity_tier, withdraw_from_liquidity_tier,
      withdraw_proportionally, PortfolioState.get_allocation,
      PortfolioState.total_value, firstMaxByValue, adjustLargest,
      floatEpsilon, dictGet, dictSet, dictAdd, dictTotal, dictKeys,
      dictHasKey, exCashConfig, exCashAsset, hnet, max_eq_right hv]
  by_cases hpos : 0 < i - c
  · -- income path
    by_cases hsf : max 0 (c * (3 / 12) - v) > 0
    · by_cases hrem : i - c - min (i - c) (max 0 (c * (3 / 12) - v)) > 0
      · simp [calculate_single_year, simulate_year, apply_returns,
          apply_cash_flows, maybe_rebalance, should_rebalance,
          get_target_allocation, calculate_returns_by_allocation,
          handle_income, ensure_liquidity_buffer, allocate_proportionally,
          allocate_by_return_optimization, PortfolioState.get_allocation,
          PortfolioState.total_value, firstMaxByValue, adjustLargest,
          floatEpsilon, dictGet, dictSet, dictAdd, dictTotal, dictKeys,
          dictHasKey, exCashConfig, exCashAsset, hnet, hpos, hsf, hrem]
      · have hdep : min (i - c) (max 0 (c * (3 / 12) - v)) = i - c :=
          le_antisymm (min_le_left _ _) (by push_neg at hrem; linarith)
        simp [calculate_single_year, simulate_year, apply_returns,
          apply_cash_flows, maybe_rebalance, should_rebalance,
          get_target_allocation, calculate_returns_by_allocation,
          handle_income, ensure_liquidity_buffer, allocate_proportionally,
          allocate_by_return_optimization, PortfolioState.get_allocation,
          PortfolioState.total_value, firstMaxByValue, adjustLargest,
          floatEpsilon, dictGet, dictSet, dictAdd, dictTotal, dictKeys,
          dictHasKey, exCashConfig, exCashAsset, hnet, hpos, hsf, hrem, hdep]
    · simp [calculate_single_year, simulate_year, apply_returns,
        apply_cash_flows, maybe_rebalance, should_rebalance,
        get_target_allocation, calculate_returns_by_allocation,
        handle_income, ensure_liquidity_buffer, allocate_proportionally,
        allocate_by_return_optimization, PortfolioState.get_allocation,
        PortfolioState.total_value, firstMaxByValue, adjustLargest,
        floatEpsilon, dictGet, dictSet, dictAdd, dictTotal, dictKeys,
        dictHasKey, exCashConfig, exCashAsset, hnet, hpos, hsf]
  · have hneg : i - c < 0 := lt_of_le_of_ne (not_lt.mp hpos) hnet
    by_cases hv0 : 0 < v
    · have habs : |i - c| = -(i - c) := abs_of_neg hneg
      have hmin0 : 0 < min |i - c| v := lt_min (abs_pos.mpr hnet) hv0
      by_cases hmv : |i - c| ≤ v
      · have hmin : min (c - i) v = c - i := min_eq_left (by rw [habs] at hmv; linarith)
        have hne0 : ¬(min (c - i) v = 0) := by
          rw [hmin]; intro h; exact hnet (by linarith)
        have hci : ¬(c - i = 0) := fun h => hnet (by linarith)
        simp [calculate_single_year, simulate_year, apply_returns,
          apply_cash_flows, maybe_rebalance, should_rebalance,
          get_target_allocation, calculate_returns_by_allocation,
          handle_expense, get_assets_by_liquidity_tier,
          withdraw_from_liquidity_tier, withdraw_proportionally,
          PortfolioState.get_allocation, PortfolioState.total_value,
          firstMaxByValue, adjustLargest, floatEpsilon, dictGet, dictSet,
          dictAdd, dictTotal, dictKeys, dictHasKey, exCashConfig,
          exCashAsset, hnet, hpos, hv0, ne_of_gt hv0, ne_of_gt hmin0,
          hmin, hne0, hci, habs, div_self (ne_of_gt hv0)]
      · have hvc : v < c - i := by
          push_neg at hmv
          rw [habs] at hmv
          linarith
        have hmin : min (c - i) v = v := min_eq_right (le_of_lt hvc)
        have hne0 : ¬(min (c - i) v = 0) := by
          rw [hmin]; exact ne_of_gt hv0
        have hmax : max 0 (v + (i - c)) = 0 := max_eq_left (by linarith)
        simp [calculate_single_year, simulate_year, apply_returns,
          apply_cash_flows, maybe_rebalance, should_rebalance,
          get_target_allocation, calculate_returns_by_allocation,
          handle_expense, get_assets_by_liquidity_tier,
          withdraw_from_liquidity_tier, withdraw_proportionally,
          PortfolioState.get_allocation, PortfolioState.total_value,
          firstMaxByValue, adjustLargest, floatEpsilon, dictGet, dictSet,
          dictAdd, dictTotal, dictKeys, dictHasKey, exCashConfig,
          exCashAsset, hnet, hpos, hv0, ne_of_gt hv0, hmin, hne0, hmax,
          habs, div_self (ne_of_gt hv0)]
    · have hv00 : v = 0 := le_antisymm (not_lt.mp hv0) hv
      subst hv00
      have hmax : max (0 : ℚ) (i - c) = 0 := max_eq_left (by linarith)
      simp [calculate_single_year, simulate_year, apply_returns,
        apply_cash_flows, maybe_rebalance, should_rebalance,
        get_target_allocation, calculate_returns_by_allocation,
        handle_expense, get_assets_by_liquidity_tier,
        withdraw_from_liquidity_tier, withdraw_proportionally,
        PortfolioState.get_allocation, PortfolioState.total_value,
        firstMaxByValue, adjustLargest, floatEpsilon, dictGet, dictSet,
        dictAdd, dictTotal, dictKeys, dictHasKey, exCashConfig,
        exCashAsset, hnet, hpos, hmax]

/-- The yearly states of the advisor scenario's base plan. -/
theorem advisor_base_states :
    calculate_yearly_states_go exCashConfig 12
      { asset_values := [("cash", 0)] } 0 exAdvisorRows
    = [{ age := 36, year := 2026, total_income := 100, total_expense := 50,
         net_cash_flow := 50, portfolio_value := 50, net_worth := 50,
         investment_return := 0, is_sustainable := true,
         fire_number := 1250, fire_progress := 1/25 },
       { age := 37, year := 2027, total_income := 100, total_expense := 50,
         net_cash_flow := 50, portfolio_value := 100, net_worth := 100,
         investment_return := 0, is_sustainable := true,
         fire_number := 1250, fire_progress := 2/25 },
       { age := 38, year := 2028, total_income := 100, total_expense := 50,
         net_cash_flow := 50, portfolio_value := 150, net_worth := 150,
         investment_return := 0, is_sustainable := true,
         fire_number := 1250, fire_progress := 3/25 },
       { age := 39, year := 2029, total_income := 0, total_expense := 50,
         net_cash_flow := -50, portfolio_value := 100, net_worth := 100,
         investment_return := 0, is_sustainable := true,
         fire_number := 1250, fire_progress := 2/25 },
       { age := 40, year := 2030, total_income := 0, total_expense := 50,
         net_cash_flow := -50, portfolio_value := 50, net_worth := 50,
         investment_return := 0, is_sustainable := true,
         fire_number := 1250, fire_progress := 1/25 }] := by
  norm_num [calculate_yearly_states_go, exAdvisorRows, single_year_cash,
    max_def, min_def]

/-- The yearly states over the truncated summary: the portfolio depletes at
age 39 and the last two years are unsustainable. -/
theorem advisor_trunc_states :
    calculate_yearly_states_go exCashConfig 12
      { asset_values := [("cash", 0)] } 0 exTruncRows
    = [{ age := 36, year := 2026, total_income := 100, total_expense := 50,
         net_cash_flow := 50, portfolio_value := 50, net_worth := 50,
         investment_return := 0, is_sustainable := true,
         fire_number := 1250, fire_progress := 1/25 },
       { age := 37, year := 2027, total_income := 100, total_expense := 50,
         net_cash_flow := 50, portfolio_value := 100, net_worth := 100,
         investment_return := 0, is_sustainable := true,
         fire_number := 1250, fire_progress := 2/25 },
       { age := 38, year := 2028, total_income := 0, total_expense := 50,
         net_cash_flow := -50, portfolio_value := 50, net_worth := 50,
         investment_return := 0, is_sustainable := true,
         fire_number := 1250, fire_progress := 1/25 },
       { age := 39, year := 2029, total_income := 0, total_expense := 50,
         net_cash_flow := -50, portfolio_value := 0, net_worth := -50,
         investment_return := 0, is_sustainable := false,
         fire_number := 1250, fire_progress := 0 },
       { age := 40, year := 2030, total_income := 0, total_expense := 50,
         net_cash_flow := -50, portfolio_value := 0, net_worth := -100,
         investment_return := 0, is_sustainable := false,
         fire_number := 1250, fire_progress := 0 }] := by
  norm_num [calculate_yearly_states_go, exTruncRows, single_year_cash,
    max_def, min_def]

/-- The advisor scenario's base plan is achievable. -/
theorem exAdvisor_base_achievable :
    (engine_calculate exAdvisorInput.user_profile 2026
        exAdvisorInput.annual_financial_projection).is_fire_achievable
      = true := by
  have hinit : initial_portfolio_from_profile exAdvisorInput.user_profile
      = { asset_values := [("cash", 0)] } := by
    norm_num [initial_portfolio_from_profile, exAdvisorInput,
      exProfileAdvisor, exCashConfig, exCashAsset]
  have hys : calculate_yearly_states exAdvisorInput.user_profile
      exAdvisorInput.annual_financial_projection
      = calculate_yearly_states_go exCashConfig 12
          { asset_values := [("cash", 0)] } 0 exAdvisorRows := by
    show calculate_yearly_states_go exCashConfig 12
      (initial_portfolio_from_profile exAdvisorInput.user_profile) 0
      exAdvisorRows = _
    rw [hinit]
  show (create_calculation_result exAdvisorInput.user_profile 2026
    (calculate_yearly_states exAdvisorInput.user_profile
      exAdvisorInput.annual_financial_projection)).is_fire_achievable = true
  rw [hys, advisor_base_states]
  norm_num [create_calculation_result]

/-- Over the truncated summary (salary cut beyond age 37) the plan is not
achievable. -/
theorem exAdvisor_trunc_unachievable :
    (engine_calculate
        { exAdvisorInput.user_profile with expected_fire_age := 37 } 2026
        exTruncRows).is_fire_achievable = false := by
  have hinit : initial_portfolio_from_profile
      { exAdvisorInput.user_profile with expected_fire_age := 37 }
      = { asset_values := [("cash", 0)] } := by
    norm_num [initial_portfolio_from_profile, exAdvisorInput,
      exProfileAdvisor, exCashConfig, exCashAsset]
  have hys : calculate_yearly_states
      { exAdvisorInput.user_profile with expected_fire_age := 37 }
      exTruncRows
      = calculate_yearly_states_go exCashConfig 12
          { asset_values := [("cash", 0)] } 0 exTruncRows := by
    show calculate_yearly_states_go exCashConfig 12
      (initial_portfolio_from_profile
        { exAdvisorInput.user_profile with expected_fire_age := 37 }) 0
      exTruncRows = _
    rw [hinit]
  show (create_calculation_result
    { exAdvisorInput.user_profile with expected_fire_age := 37 } 2026
    (calculate_yearly_states
      { exAdvisorInput.user_profile with expected_fire_age := 37 }
      exTruncRows)).is_fire_achievable = false
  rw [hys, advisor_trunc_states]
  norm_num [create_calculation_result]

/-- The C4 truncation of the advisor scenario's detailed projection at test
age 37, summarized. -/
theorem exAdvisor_trunc_summary : spec_truncated_summary exAdvisorInput 37
    = some exTruncRows := by
  simp [spec_truncated_summary, create_annual_summary_from_detailed,
    exAdvisorInput, exProfileAdvisor, exAdvisorDetailed, exSalaryItem,
    exTruncRows, dictGet, dictSet, dictHasKey, List.find?,
    Except.toOption]

/-- The truncated-projection walk of claim C4 stops immediately on the
advisor scenario: age 37 is already unsustainable. -/
theorem exAdvisor_spec_loop : spec_earliest_loop exAdvisorInput 2026 36 (38 - 1) 38
    = 38 := by
  rw [spec_earliest_loop.eq_def]
  rw [dif_pos (by norm_num : (36 : ℤ) ≤ 38 - 1)]
  norm_num [exAdvisor_trunc_summary, exAdvisor_trunc_unachievable]

/-- Counterexample to C4 as stated: on the advisor scenario the code's walk
never fails (no income is ever truncated) and reports the current age 36,
while the truncated-projection search the claim describes finds even the
first candidate age 37 unsustainable and reports nothing. -/
theorem c4_counterexample :
    find_earliest_retirement_age exAdvisorInput 2026 = some 36
    ∧ spec_find_earliest_retirement_age exAdvisorInput 2026 = none := by
  constructor
  · have hloop := earliest_loop_reaches_current exAdvisorInput 2026 36
      exAdvisor_base_achievable 2 37 38 (by norm_num) (by decide)
    have h1 : exAdvisorInput.user_profile.expected_fire_age = 38 := rfl
    have h2 : exAdvisorInput.user_profile.current_age 2026 = 36 := rfl
    simp only [find_earliest_retirement_age, h1, h2]
    norm_num [hloop]
  · have h1 : exAdvisorInput.user_profile.expected_fire_age = 38 := rfl
    have h2 : exAdvisorInput.user_profile.current_age 2026 = 36 := rfl
    simp only [spec_find_earliest_retirement_age, h1, h2]
    rw [exAdvisor_spec_loop]
    norm_num

/-- Witness for the amended C4 on the advisor scenario: base plan
achievable, current age 36 below the expected FIRE age 38, and the search
reports exactly the current age. -/
theorem c4_witness :
    ((engine_calculate exAdvisorInput.user_profile 2026
        exAdvisorInput.annual_financial_projection).is_fire_achievable = true
      ∧ exAdvisorInput.user_profile.current_age 2026
        < exAdvisorInput.user_profile.expected_fire_age)
    ∧ find_earliest_retirement_age exAdvisorInput 2026
      = some (exAdvisorInput.user_profile.current_age 2026) := by
  refine ⟨⟨exAdvisor_base_achievable, by decide⟩, ?_⟩
  exact c4_earliest_search_no_truncation exAdvisorInput 2026
    exAdvisor_base_achievable (by decide)


/-!  ## Claim C9 -/

/-- The C9 scenario's base plan is not achievable: one year, income 60
against expenses 50 and a 12-month buffer of 50. -/
theorem c9_base_unachievable :
    (engine_calculate exC9Input.user_profile 2026
        exC9Input.annual_financial_projection).is_fire_achievable = false := by
  have hinit : initial_portfolio_from_profile exC9Input.user_profile
      = { asset_values := [("cash", 0)] } := by
    norm_num [initial_portfolio_from_profile, exC9Input, exC9Profile,
      exCashConfig, exCashAsset]
  have hgo : calculate_yearly_states_go exCashConfig 12
      { asset_values := [("cash", 0)] } 0
      exC9Input.annual_financial_projection
      = [{ age := 36, year := 2026, total_income := 60, total_expense := 50,
           net_cash_flow := 10, portfolio_value := 10, net_worth := 10,
           investment_return := 0, is_sustainable := false,
           fire_number := 1250, fire_progress := 10/1250 }] := by
    norm_num [calculate_yearly_states_go, exC9Input, single_year_cash,
      max_def, min_def]
  have hys : calculate_yearly_states exC9Input.user_profile
      exC9Input.annual_financial_projection
      = [{ age := 36, year := 2026, total_income := 60, total_expense := 50,
           net_cash_flow := 10, portfolio_value := 10, net_worth := 10,
           investment_return := 0, is_sustainable := false,
           fire_number := 1250, fire_progress := 10/1250 }] := by
    show calculate_yearly_states_go exCashConfig 12
      (initial_portfolio_from_profile exC9Input.user_profile) 0
      exC9Input.annual_financial_projection = _
    rw [hinit, hgo]
  show (create_calculation_result exC9Input.user_profile 2026
    (calculate_yearly_states exC9Input.user_profile
      exC9Input.annual_financial_projection)).is_fire_achievable = false
  rw [hys]
  norm_num [create_calculation_result]

/-- With every income scaled by `m`, the C9 plan is achievable exactly when
`m ≥ 5/3` (income `60 m` must cover the expense 50 plus the 50 buffer). -/
theorem c9_income_achievable (m : ℚ) :
    (engine_calculate exC9Input.user_profile 2026
        (exC9Input.annual_financial_projection.map
          (fun r => { r with total_income := r.total_income * m
                    }))).is_fire_achievable
      = decide (5/3 ≤ m) := by
  have hinit : initial_portfolio_from_profile exC9Input.user_profile
      = { asset_values := [("cash", 0)] } := by
    norm_num [initial_portfolio_from_profile, exC9Input, exC9Profile,
      exCashConfig, exCashAsset]
  have hrows : exC9Input.annual_financial_projection.map
      (fun r => { r with total_income := r.total_income * m })
      = [{ age := 36, year := 2026, total_income := 60 * m,
           total_expense := 50 }] := by
    norm_num [exC9Input]
  have hys : calculate_yearly_states exC9Input.user_profile
      [{ age := 36, year := 2026, total_income := 60 * m,
         total_expense := 50 }]
      = calculate_yearly_states_go exCashConfig 12
          { asset_values := [("cash", 0)] } 0
          [{ age := 36, year := 2026, total_income := 60 * m,
             total_expense := 50 }] := by
    show calculate_yearly_states_go exCashConfig 12
      (initial_portfolio_from_profile exC9Input.user_profile) 0 _ = _
    rw [hinit]
  rw [hrows]
  show (create_calculation_result exC9Input.user_profile 2026
    (calculate_yearly_states exC9Input.user_profile _)).is_fire_achievable = _
  rw [hys]
  rw [calculate_yearly_states_go, single_year_cash 12 0 (60 * m) 50 36 2026
    le_rfl]
  by_cases hm : 5/3 ≤ m
  · have hmax : max (0 : ℚ) (60 * m - 50) = 60 * m - 50 :=
      max_eq_right (by linarith)
    norm_num [calculate_yearly_states_go, create_calculation_result, hmax]
    constructor
    · intro h
      linarith
    · intro h
      linarith
  · have hlt : (0 : ℚ) ⊔ (60 * m - 50) < 50 := by
      rw [sup_lt_iff]
      constructor
      · norm_num
      · push_neg at hm
        linarith
    norm_num [calculate_yearly_states_go, create_calculation_result]
    constructor
    · intro h
      push_neg at hm
      linarith
    · intro h
      exact absurd h hm

/-- With every expense scaled by `1 - x`, the C9 plan is achievable exactly
when `x ≥ 2/5`. -/
theorem c9_expense_achievable (x : ℚ) :
    (engine_calculate exC9Input.user_profile 2026
        (exC9Input.annual_financial_projection.map
          (fun r => { r with total_expense := r.total_expense * (1 - x)
                    }))).is_fire_achievable
      = decide (2/5 ≤ x) := by
  have hinit : initial_portfolio_from_profile exC9Input.user_profile
      = { asset_values := [("cash", 0)] } := by
    norm_num [initial_portfolio_from_profile, exC9Input, exC9Profile,
      exCashConfig, exCashAsset]
  have hrows : exC9Input.annual_financial_projection.map
      (fun r => { r with total_expense := r.total_expense * (1 - x) })
      = [{ age := 36, year := 2026, total_income := 60,
           total_expense := 50 * (1 - x) }] := by
    norm_num [exC9Input]
  have hys : calculate_yearly_states exC9Input.user_profile
      [{ age := 36, year := 2026, total_income := 60,
         total_expense := 50 * (1 - x) }]
      = calculate_yearly_states_go exCashConfig 12
          { asset_values := [("cash", 0)] } 0
          [{ age := 36, year := 2026, total_income := 60,
             total_expense := 50 * (1 - x) }] := by
    show calculate_yearly_states_go exCashConfig 12
      (initial_portfolio_from_profile exC9Input.user_profile) 0 _ = _
    rw [hinit]
  rw [hrows]
  show (create_calculation_result exC9Input.user_profile 2026
    (calculate_yearly_states exC9Input.user_profile _)).is_fire_achievable = _
  rw [hys]
  rw [calculate_yearly_states_go, single_year_cash 12 0 60 (50 * (1 - x))
    36 2026 le_rfl]
  by_cases hx : 2/5 ≤ x
  · have hmax : max (0 : ℚ) (60 - 50 * (1 - x)) = 60 - 50 * (1 - x) :=
      max_eq_right (by nlinarith)
    norm_num [calculate_yearly_states_go, create_calculation_result, hmax]
    constructor
    · intro h
      nlinarith
    · intro h
      nlinarith
  · have hlt : (0 : ℚ) ⊔ (60 - 50 * (1 - x)) < 50 * (1 - x) := by
      rw [sup_lt_iff]
      push_neg at hx
      constructor
      · nlinarith
      · nlinarith
    norm_num [calculate_yearly_states_go, create_calculation_result]
    have d1 : decide ((50 : ℚ) * (1 - x) ≤ 0) = false :=
      decide_eq_false (by push_neg at hx; intro h; nlinarith)
    have d2 : decide ((50 : ℚ) * (1 - x) ≤ 60 - 50 * (1 - x)) = false :=
      decide_eq_false (by push_neg at hx; intro h; nlinarith)
    have d3 : decide ((2 : ℚ)/5 ≤ x) = false := decide_eq_false hx
    rw [d1, d2, d3]
    rfl

/-- The income bisection on `[1, 5]` with tolerance `0.01` against the
threshold `5/3` converges to `107/64`. -/
theorem c9_bisect_income :
    bisect_loop (fun m => decide ((5 : ℚ)/3 ≤ m)) (1/100) 64 1 5 none
      = some (107/64) := by
  rw [show (64 : ℕ) = 63 + 1 from rfl]
  rw [bisect_loop]
  norm_num
  rw [show (63 : ℕ) = 62 + 1 from rfl]
  rw [bisect_loop]
  norm_num
  rw [show (62 : ℕ) = 61 + 1 from rfl]
  rw [bisect_loop]
  norm_num
  rw [show (61 : ℕ) = 60 + 1 from rfl]
  rw [bisect_loop]
  norm_num
  rw [show (60 : ℕ) = 59 + 1 from rfl]
  rw [bisect_loop]
  norm_num
  rw [show (59 : ℕ) = 58 + 1 from rfl]
  rw [bisect_loop]
  norm_num
  rw [show (58 : ℕ) = 57 + 1 from rfl]
  rw [bisect_loop]
  norm_num
  rw [show (57 : ℕ) = 56 + 1 from rfl]
  rw [bisect_loop]
  norm_num
  rw [show (56 : ℕ) = 55 + 1 from rfl]
  rw [bisect_loop]
  norm_num
  rw [show (55 : ℕ) = 54 + 1 from rfl]
  rw [bisect_loop]
  norm_num

/-- The expense bisection on `[0, 0.8]` with tolerance `0.001` against the
threshold `2/5` converges to `2/5`. -/
theorem c9_bisect_expense :
    bisect_loop (fun x => decide ((2 : ℚ)/5 ≤ x)) (1/1000) 64 0 (8/10) none
      = some (2/5) := by
  rw [show (64 : ℕ) = 63 + 1 from rfl]
  rw [bisect_loop]
  norm_num
  rw [show (63 : ℕ) = 62 + 1 from rfl]
  rw [bisect_loop]
  norm_num
  rw [show (62 : ℕ) = 61 + 1 from rfl]
  rw [bisect_loop]
  norm_num
  rw [show (61 : ℕ) = 60 + 1 from rfl]
  rw [bisect_loop]
  norm_num
  rw [show (60 : ℕ) = 59 + 1 from rfl]
  rw [bisect_loop]
  norm_num
  rw [show (59 : ℕ) = 58 + 1 from rfl]
  rw [bisect_loop]
  norm_num
  rw [show (58 : ℕ) = 57 + 1 from rfl]
  rw [bisect_loop]
  norm_num
  rw [show (57 : ℕ) = 56 + 1 from rfl]
  rw [bisect_loop]
  norm_num
  rw [show (56 : ℕ) = 55 + 1 from rfl]
  rw [bisect_loop]
  norm_num
  rw [show (55 : ℕ) = 54 + 1 from rfl]
  rw [bisect_loop]
  norm_num
  rw [show (54 : ℕ) = 53 + 1 from rfl]
  rw [bisect_loop]
  norm_num

/-- On the C9 scenario (legal retirement equals the expected FIRE age, so
no delay is possible) the delayed-retirement finder returns the
infeasibility sentinel: typed `"delayed_retirement"` with
`is_achievable = false`, not `"delayed_retirement_not_feasible"`. -/
theorem c9_delayed_eval :
    ∃ fc pr, find_required_delayed_retirement exC9Input 2026
      = Except.ok (some
          { recommendation_type := "delayed_retirement"
            is_achievable := false
            fire_calculation_result := fc
            monte_carlo_success_rate := none
            params := pr }) := by
  have hloop : delayed_retirement_loop exC9Input 2026 36 (36 + 1)
      = Except.ok none := by
    rw [delayed_retirement_loop.eq_def, dif_neg (by norm_num)]
  have h1 : exC9Input.user_profile.expected_fire_age = 36 := rfl
  have h2 : exC9Input.user_profile.legal_retirement_age = 36 := rfl
  simp only [find_required_delayed_retirement, h1, h2, hloop]
  simp [extend_work_income_to_age, create_annual_summary_from_detailed,
    exC9Input, exC9Profile, exC9SalaryItem, py_truthy_int, dictGet,
    List.find?]
  exact ⟨_, _, rfl⟩

/-- The income finder's recommendation on the C9 scenario is typed
`"income_adjustment"`, not `"increase_income"`. -/
theorem c9_income_eval :
    ∃ fc pr, find_required_income_increase exC9Input 2026
      = Except.ok (some
          { recommendation_type := "income_adjustment"
            is_achievable := true
            fire_calculation_result := fc
            monte_carlo_success_rate := none
            params := pr }) := by
  have hfn : (fun m : ℚ =>
      (engine_calculate exC9Input.user_profile 2026
        (exC9Input.annual_financial_projection.map
          (fun r => { r with total_income := r.total_income * m
                    }))).is_fire_achievable)
      = fun m => decide ((5 : ℚ)/3 ≤ m) := funext c9_income_achievable
  simp only [find_required_income_increase]
  rw [hfn, c9_bisect_income]
  simp [py_truthy_rat, exC9Input]

/-- The expense finder's recommendation on the C9 scenario is typed
`"expense_reduction"`, not `"reduce_expenses"`. -/
theorem c9_expense_eval :
    ∃ fc pr, find_required_expense_reduction exC9Input 2026
      = Except.ok (some
          { recommendation_type := "expense_reduction"
            is_achievable := true
            fire_calculation_result := fc
            monte_carlo_success_rate := none
            params := pr }) := by
  have hfn : (fun x : ℚ =>
      (engine_calculate exC9Input.user_profile 2026
        (exC9Input.annual_financial_projection.map
          (fun r => { r with total_expense := r.total_expense * (1 - x)
                    }))).is_fire_achievable)
      = fun x => decide ((2 : ℚ)/5 ≤ x) := funext c9_expense_achievable
  simp only [find_required_expense_reduction]
  rw [hfn, c9_bisect_expense]
  simp [py_truthy_rat, exC9Input]

/-- **C9.**  The advisor's recommendation types on the failing input
`exC9Input`: the code emits `"delayed_retirement"` (with
`is_achievable = false`), `"income_adjustment"` and
`"expense_reduction"`, of which the latter two are not among the claim's
untranslated identifiers, and the infeasible-delay sentinel is not typed
`"delayed_retirement_not_feasible"`.  The repository's own consumers of
recommendations expect the claimed identifiers, so the divergence is a
defect of the advisor's dataclasses. -/
theorem c9_recommendation_types :
    ((get_all_recommendations exC9Input 2026 0).toOption.getD []).map
        (fun r => (r.recommendation_type, r.is_achievable))
      = [("delayed_retirement", false), ("income_adjustment", true),
         ("expense_reduction", true)]
    ∧ "income_adjustment" ∉ (["early_retirement", "delayed_retirement",
        "delayed_retirement_not_feasible", "increase_income",
        "reduce_expenses"] : List String)
    ∧ "expense_reduction" ∉ (["early_retirement", "delayed_retirement",
        "delayed_retirement_not_feasible", "increase_income",
        "reduce_expenses"] : List String) := by
  obtain ⟨fcd, prd, hd⟩ := c9_delayed_eval
  obtain ⟨fci, pri, hi⟩ := c9_income_eval
  obtain ⟨fce, pre, he⟩ := c9_expense_eval
  refine ⟨?_, by decide, by decide⟩
  simp only [get_all_recommendations, c9_base_unachievable]
  simp [hd, hi, he, Except.toOption, bind, Except.bind, Except.instMonad,
    Option.getD, List.filterMap]

end FIREBalance
